import Mathlib

/-!
A shallow embedding of the Insurance_Agent repository (src/dialogue.py,
src/nlu.py, src/premium.py) in Lean 4, together with theorems settling the
frozen claims about it.

Modelling conventions:
* Python strings are modelled as Lean `String`s, worked on through their
  `List Char` data; `str.lower()`, `str.strip()`, `c.isdigit()` are modelled
  over ASCII (the repository's keyword tables and phrase sets are ASCII).
* Python's heterogeneous slot dict is a `List (String × Val)` association
  list with insert-or-update / pop operations (iteration order is never
  observed by the code, only key lookup).
* Python floats are idealised as `ℚ`; `round(x, 2)` is idealised as
  `⌊100x + 1/2⌋ / 100`.
* `datetime.now()` is a `Clock` parameter; the RAG index is a `retrieve`
  function parameter.
* Fallible Python code (uncaught `int(...)` conversions, the
  `coverage_factor_map[...]` lookup that can raise `KeyError`) is modelled
  with `Option`; a `try/except: pass` block is an `Option` match whose
  `none` arm skips.
-/

set_option maxRecDepth 4000

namespace InsAgent

/-- ASCII apostrophe, spliced into string literals that contain one. -/
def apos : String := (Char.ofNat 39).toString

/-! ### ASCII character classes and string primitives -/

/-- ASCII lower-casing of one character (models `str.lower` on ASCII input). -/
def lowChar (c : Char) : Char :=
  if 'A' ≤ c ∧ c ≤ 'Z' then Char.ofNat (c.toNat + 32) else c

/-- Python whitespace (the characters `str.strip` and `\s` treat as space). -/
def isWSC (c : Char) : Bool :=
  c = ' ' ∨ c.toNat = 9 ∨ c.toNat = 10 ∨ c.toNat = 11 ∨ c.toNat = 12 ∨ c.toNat = 13

def isDigitC (c : Char) : Bool := '0' ≤ c ∧ c ≤ '9'

def isAlphaC (c : Char) : Bool := ('a' ≤ c ∧ c ≤ 'z') ∨ ('A' ≤ c ∧ c ≤ 'Z')

def isAlnumC (c : Char) : Bool := isAlphaC c || isDigitC c

/-- A regex word character (`\w`), ASCII view. -/
def isWordC (c : Char) : Bool := isAlnumC c || c = '_'

def lowerS (s : String) : String := ⟨s.data.map lowChar⟩

def trimL (l : List Char) : List Char :=
  ((l.dropWhile isWSC).reverse.dropWhile isWSC).reverse

/-- Models Python `str.strip()`. -/
def trimS (s : String) : String := ⟨trimL s.data⟩

/-- `n` is a leading run of `l`. -/
def leadsL : List Char → List Char → Bool
  | [], _ => true
  | _ :: _, [] => false
  | a :: as, b :: bs => a = b && leadsL as bs

/-- `n` occurs contiguously inside `l` (Python `n in l` on strings). -/
def hasSubL (n : List Char) : List Char → Bool
  | [] => leadsL n []
  | c :: cs => leadsL n (c :: cs) || hasSubL n cs

def hasSubS (n t : String) : Bool := hasSubL n.data t.data

/-- `_contains_any(text, phrases)` from src/dialogue.py (lines 99-101). -/
def contains_any (text : String) (phrases : List String) : Bool :=
  let t := lowerS text
  phrases.any (fun p => hasSubS p t)

/-- Decimal digits of a natural number, most significant first. -/
def natDigitsAux : Nat → Nat → List Char
  | 0, _ => []
  | f + 1, n =>
    if n = 0 then []
    else natDigitsAux f (n / 10) ++ [Char.ofNat (48 + n % 10)]

def natToStr (n : Nat) : String :=
  if n = 0 then "0" else ⟨natDigitsAux (n + 1) n⟩

def intToStr (n : Int) : String :=
  if n < 0 then "-" ++ natToStr n.natAbs else natToStr n.toNat

/-- Value of a (nonempty) list of decimal digit characters. -/
def digitsVal (l : List Char) : Nat :=
  l.foldl (fun a c => a * 10 + (c.toNat - 48)) 0

/-! ### Slot values and the slot map -/

inductive Val where
  | vStr (s : String)
  | vInt (n : Int)
  | vBool (b : Bool)
  | vRat (q : ℚ)
  | vCtr (m : List (String × Nat))
deriving DecidableEq, Repr

open Val

abbrev Slots := List (String × Val)

def slotGet? : Slots → String → Option Val
  | [], _ => none
  | p :: rest, k => if p.1 = k then some p.2 else slotGet? rest k

def slotHas (s : Slots) (k : String) : Bool := (slotGet? s k).isSome

/-- Python `d[k] = v`: replace in place if present, else append. -/
def slotSet : Slots → String → Val → Slots
  | [], k, v => [(k, v)]
  | p :: rest, k, v => if p.1 = k then (k, v) :: rest else p :: slotSet rest k v

/-- Python `d.pop(k, None)` (the removal part). -/
def slotPop : Slots → String → Slots
  | [], _ => []
  | p :: rest, k => if p.1 = k then slotPop rest k else p :: slotPop rest k

/-- Python `d.get(k, dflt)`. -/
def slotGetD (s : Slots) (k : String) (dflt : Val) : Val :=
  (slotGet? s k).getD dflt

/-- `d[k] = v` guarded by an optional value (no-op on `none`). -/
def setOpt (s : Slots) (k : String) (o : Option Val) : Slots :=
  match o with
  | some v => slotSet s k v
  | none => s

/-- The pervasive `if k not in slots: slots[k] = v` pattern. -/
def setIfAbsent (s : Slots) (k : String) (o : Option Val) : Slots :=
  match o with
  | some v => if !slotHas s k then slotSet s k v else s
  | none => s

/-- Python truthiness of a slot value. -/
def pyTruthy : Val → Bool
  | vStr s => s ≠ ""
  | vInt n => n ≠ 0
  | vBool b => b
  | vRat q => q ≠ 0
  | vCtr m => m ≠ []

/-- Truthiness of `d.get(k)` (missing key is `None`, falsy). -/
def slotTruthy (s : Slots) (k : String) : Bool :=
  match slotGet? s k with
  | some v => pyTruthy v
  | none => false

/-- Python `int(value)`; `none` models the raising cases. -/
def pyInt? : Val → Option Int
  | vInt n => some n
  | vBool b => some (if b then 1 else 0)
  | vRat q => some (if 0 ≤ q then ⌊q⌋ else ⌈q⌉)
  | vStr s =>
    let t := (trimS s).data
    match t with
    | '-' :: rest => if rest ≠ [] ∧ rest.all isDigitC then some (-(digitsVal rest : Int)) else none
    | _ => if t ≠ [] ∧ t.all isDigitC then some (digitsVal t : Int) else none
  | vCtr _ => none

/-- Python `float(value)`; `none` models the raising cases. -/
def pyFloat? : Val → Option ℚ
  | vInt n => some (n : ℚ)
  | vRat q => some q
  | vBool b => some (if b then 1 else 0)
  | vStr _ => none
  | vCtr _ => none

/-- Python `str(value)` / f-string rendering of a slot value (numeric
rendering of rationals is a model approximation of float `repr`). -/
def pyStr : Val → String
  | vStr s => s
  | vInt n => intToStr n
  | vBool b => if b then "True" else "False"
  | vRat q => intToStr q.num ++ "/" ++ natToStr q.den
  | vCtr _ => "{}"

/-! ### src/premium.py -/

structure PremiumResult where
  monthly_eur : ℚ
  breakdown : List (String × ℚ)
deriving DecidableEq

/-- Idealisation of Python `round(x, 2)` over `ℚ`. -/
def round2 (q : ℚ) : ℚ := ((⌊q * 100 + 1 / 2⌋ : ℤ) : ℚ) / 100

def city_factor_of (city_norm : String) : ℚ :=
  if city_norm = "ljubljana" then 120 / 100
  else if city_norm = "maribor" then 115 / 100
  else if city_norm = "celje" then 110 / 100
  else if city_norm = "koper" then 105 / 100
  else 104 / 100

/-- `coverage_factor_map[coverage_level]`; `none` models the `KeyError`. -/
def coverage_factor? (coverage_level : String) : Option ℚ :=
  if coverage_level = "basic" then some (80 / 100)
  else if coverage_level = "standard" then some (90 / 100)
  else if coverage_level = "premium" then some 1
  else none

/-- `calculate_premium` from src/premium.py (lines 28-59). -/
def calculate_premium? (vehicle_age horsepower : Int) (city : String)
    (coverage_level : String) : Option PremiumResult :=
  let base : ℚ := 25
  let age_factor : ℚ := 1 + ((max 0 (vehicle_age - 3) : ℤ) : ℚ) * (5 / 100)
  let power_factor : ℚ := 1 + ((max 0 (horsepower - 80) : ℤ) : ℚ) * (1 / 100)
  let city_norm := lowerS (trimS city)
  let city_factor := city_factor_of city_norm
  match coverage_factor? coverage_level with
  | none => none
  | some coverage_factor =>
    let monthly := base * age_factor * power_factor * city_factor * coverage_factor
    some { monthly_eur := round2 monthly
           breakdown := [("base", base), ("age_factor", age_factor),
                         ("power_factor", power_factor), ("city_factor", city_factor),
                         ("coverage_factor", coverage_factor)] }

/-- `estimate_hp_from_engine_size` from src/dialogue.py (lines 391-404). -/
def estimate_hp_from_engine_size (engine_size_l : ℚ) : Int × String :=
  if engine_size_l ≤ 1 then (95, "estimated from engine size")
  else if engine_size_l ≤ 12 / 10 then (105, "estimated from engine size")
  else if engine_size_l ≤ 14 / 10 then (120, "estimated from engine size")
  else if engine_size_l ≤ 16 / 10 then (135, "estimated from engine size")
  else if engine_size_l ≤ 18 / 10 then (155, "estimated from engine size")
  else if engine_size_l ≤ 2 then (180, "estimated from engine size")
  else (200, "estimated from engine size")

/-! ### src/nlu.py: intent detection -/

structure IntentResult where
  intent : String
  confidence : ℚ
deriving DecidableEq

def kwDocQa : List String :=
  ["what is", "tell me about", "information on", "details about", "explain", "how to"]

def kwReportClaim : List String :=
  ["report a claim", "file a claim", "accident", "crash", "stolen", "theft", "claim"]

def kwPremiumEstimate : List String :=
  ["premium", "quote", "cost", "price", "how much", "estimate", " need insurance",
   "want insurance", "need a quote", "get a quote", "cheapest insurance",
   "insurance cost", "insurance premium", "insurance quote", "insurance price",
   "option", "options", "cheap option", "cheap options", "cheapest option",
   "lowest price", "need a quote", "get a quote"]

def kwHandoffHuman : List String :=
  ["agent", "representative", "call me back", "human", "talk to someone",
   "speak to someone", "customer service", "real person", "live person", "operator"]

def kwCompareCoverage : List String :=
  ["compare", "comparison", "compare them", "show options", "show differences",
   "yes compare", "compare plans", "options"]

def kwAny (t : String) (ks : List String) : Bool := ks.any (fun k => hasSubS k t)

/-- `detect_intent` from src/nlu.py (lines 30-49). -/
def detect_intent (user_text : String) (last_intent : Option String) : IntentResult :=
  let t := trimS (lowerS user_text)
  if last_intent = some "premium_estimate" ∧ kwAny t kwPremiumEstimate then
    ⟨"premium_estimate", 85 / 100⟩
  else if kwAny t kwCompareCoverage then ⟨"compare_coverage", 9 / 10⟩
  else if kwAny t kwPremiumEstimate then ⟨"premium_estimate", 8 / 10⟩
  else if kwAny t kwReportClaim then ⟨"report_claim", 8 / 10⟩
  else if kwAny t kwHandoffHuman then ⟨"handoff_human", 7 / 10⟩
  else ⟨"doc_qa", 6 / 10⟩

/-! ### difflib.SequenceMatcher ratio (used by `normalize_city`)

`difflib.SequenceMatcher(None, a, b).ratio()` is `2*M/T` where `T` is the
total length and `M` sums the sizes of the matching blocks produced by
recursively taking the longest matching block (ties resolved to the
leftmost start in `a`, then in `b` — the "first" block the scan of
`find_longest_match` records) and recursing on the pieces to its left and
right.  Autojunk is irrelevant here (`b` is 9 characters long).  -/

/-- Length of the longest common leading run of two lists. -/
def lcpLen : List Char → List Char → Nat
  | a :: as, b :: bs => if a = b then lcpLen as bs + 1 else 0
  | _, _ => 0

/-- `find_longest_match` over full ranges: the longest common contiguous
block, as `(start in a, start in b, size)`; ties go to the smallest start
in `a`, then the smallest start in `b`; `(0, 0, 0)` when there is none. -/
def flm (a b : List Char) : Nat × Nat × Nat :=
  (List.range a.length).foldl
    (fun best i =>
      (List.range b.length).foldl
        (fun best j =>
          let k := lcpLen (a.drop i) (b.drop j)
          if best.2.2 < k then (i, j, k) else best)
        best)
    (0, 0, 0)

/-- Total size of the matching blocks (fuelled; any fuel above the summed
length is enough since every recursive call strictly shrinks the pieces). -/
def matchedSize : Nat → List Char → List Char → Nat
  | 0, _, _ => 0
  | fuel + 1, a, b =>
    let r := flm a b
    if r.2.2 = 0 then 0
    else
      r.2.2 + matchedSize fuel (a.take r.1) (b.take r.2.1) +
        matchedSize fuel (a.drop (r.1 + r.2.2)) (b.drop (r.2.1 + r.2.2))

/-- `SequenceMatcher(None, a, b).ratio()` (1 on two empty sequences). -/
def simRatio (a b : List Char) : ℚ :=
  let T := a.length + b.length
  if T = 0 then 1 else (2 * (matchedSize (T + 1) a b : ℚ)) / (T : ℚ)

/-! ### src/dialogue.py: module tables and city normalization -/

def CANCEL_WORDS : List String := ["cancel", "stop", "nevermind", "never mind"]

def EXIT_WORDS : List String :=
  ["hang up", "goodbye", "bye", "exit", "quit", "stop", "end", "terminate",
   "close", "disconnect"]

def DIGIT_WORDS : List (String × Char) :=
  [("zero", '0'), ("oh", '0'), ("o", '0'), ("one", '1'), ("two", '2'),
   ("three", '3'), ("four", '4'), ("for", '4'), ("five", '5'), ("six", '6'),
   ("seven", '7'), ("eight", '8'), ("ate", '8'), ("nine", '9')]

def LJ_VARIANTS : List String :=
  ["ljublajan", "ljublijana", "ljubljana", "ljubljkana", "leobliana",
   "liubljana", "lubljana"]

def KNOWN_CITIES : List (String × String) :=
  [("maribor", "Maribor"), ("celje", "Celje"), ("koper", "Koper")]

/-- `normalize_city` from src/dialogue.py (lines 104-133). -/
def normalize_city (city : String) : String :=
  let raw := trimS city
  let c := trimS (lowerS raw)
  if c = "" then raw
  else if LJ_VARIANTS.contains c || hasSubS "ljubl" c then "Ljubljana"
  else if (75 : ℚ) / 100 ≤ simRatio c.data "ljubljana".data then "Ljubljana"
  else
    match KNOWN_CITIES.find? (fun p => p.1 = c) with
    | some p => p.2
    | none => trimS raw

/-! ### Spoken-digit recovery -/

/-- `re.findall(r"[a-zA-Z]+|\d+", t)`: the maximal alphabetic and numeric
runs of `t`, in order.  First argument: class of the run being collected
(1 = alpha, 2 = digit, 0 = none), second: the collected run, reversed. -/
def findTokensGo : Nat → List Char → List Char → List (List Char)
  | cls, acc, [] => if cls = 0 then [] else [acc.reverse]
  | cls, acc, c :: cs =>
    let cc : Nat := if isAlphaC c then 1 else if isDigitC c then 2 else 0
    if cc = cls ∧ cls ≠ 0 then findTokensGo cls (c :: acc) cs
    else if cls = 0 then findTokensGo cc (if cc = 0 then [] else [c]) cs
    else acc.reverse :: findTokensGo cc (if cc = 0 then [] else [c]) cs

def findTokens (l : List Char) : List (List Char) := findTokensGo 0 [] l

def digitWord? (tok : List Char) : Option Char :=
  (DIGIT_WORDS.find? (fun p => p.1.data = tok)).map (·.2)

/-- The token loop of `_spoken_digits_to_string` (lines 65-87): digit runs
pass through, `double`/`triple` repeat the following digit word, digit
words map to their digit. -/
def spokenOut : List (List Char) → List Char
  | [] => []
  | [tok] =>
    if tok ≠ [] ∧ tok.all isDigitC then tok
    else if tok = "double".data ∨ tok = "triple".data then []
    else
      match digitWord? tok with
      | some d => [d]
      | none => []
  | tok :: nxt :: rest2 =>
    if tok ≠ [] ∧ tok.all isDigitC then tok ++ spokenOut (nxt :: rest2)
    else if tok = "double".data ∨ tok = "triple".data then
      match digitWord? nxt with
      | some d =>
        List.replicate (if tok = "double".data then 2 else 3) d ++ spokenOut rest2
      | none => spokenOut (nxt :: rest2)
    else
      match digitWord? tok with
      | some d => d :: spokenOut (nxt :: rest2)
      | none => spokenOut (nxt :: rest2)

/-- The digit characters of the lower-cased text, in order. -/
def rawDigitsOf (text : String) : List Char :=
  (lowerS text).data.filter isDigitC

/-- The spoken-word reconstruction of the lower-cased text. -/
def spokenOf (text : String) : List Char :=
  spokenOut (findTokens (lowerS text).data)

/-- `_spoken_digits_to_string` from src/dialogue.py (lines 60-90). -/
def spoken_digits_to_string (text : String) : String :=
  let raw_digits := rawDigitsOf text
  let spoken := spokenOf text
  if raw_digits.length ≤ spoken.length then ⟨spoken⟩ else ⟨raw_digits⟩

/-- `_extract_policy_number` from src/dialogue.py (lines 93-96). -/
def extract_policy_number (text : String) : String :=
  let s := (spoken_digits_to_string text).data.filter isDigitC
  if 6 ≤ s.length then ⟨s⟩ else ""

/-! ### Regex-shaped matchers

Each Python `re` pattern used by the repository is rendered as a dedicated
scanner with the same semantics (leftmost match, greedy/lazy quantifiers
with the backtracking the pattern allows, `\b` word boundaries). -/

/-- `\b` state: is the position boundary-adjacent given the previous
character (`none` at the start of the string)?  True iff the previous
character is absent or not a word character. -/
def nonWordOpt : Option Char → Bool
  | none => true
  | some c => !isWordC c

/-- Case-insensitive `leadsL` (the pattern `w` is lower-case). -/
def lowLeads (w l : List Char) : Bool := leadsL w ((l.take w.length).map lowChar)

/-- `re.search(r"\b(w)\b", t)` for a single alphabetic word `w`. -/
def hasWordFrom (w : List Char) : Option Char → List Char → Bool
  | prev, [] => nonWordOpt prev && leadsL w []
  | prev, c :: cs =>
    (nonWordOpt prev && leadsL w (c :: cs) &&
      nonWordOpt ((c :: cs).drop w.length).head?) ||
    hasWordFrom w (some c) cs

def hasWordS (w t : String) : Bool := hasWordFrom w.data none t.data

/-- `_parse_yes_no` from src/dialogue.py (lines 231-242). -/
def parse_yes_no (text : String) : Option Bool :=
  let t := lowerS (trimS text)
  if t = "np" ∨ t = "nop" ∨ t = "noo" ∨ t = "nahh" then some false
  else if ["no", "nope", "nah", "not"].any (fun w => hasWordS w t) then some false
  else if ["yes", "yeah", "yep", "y", "sure", "correct", "ok"].any
      (fun w => hasWordS w t) then some true
  else none

/-- The parts of `datetime.now()` the code reads, passed in as a
parameter (module constant `CURRENT_YEAR` and the per-call `now()`). -/
structure Clock where
  currentYear : Int
  yyyymm : String
  todayStr : String
  yesterdayStr : String

/-- One attempt of `\b(\d{4})-(\d{2})-(\d{2})\b` at the current position. -/
def isoHere (prev : Option Char) : List Char → Option String
  | d1 :: d2 :: d3 :: d4 :: '-' :: m1 :: m2 :: '-' :: a1 :: a2 :: rest =>
    if nonWordOpt prev && ([d1, d2, d3, d4, m1, m2, a1, a2].all isDigitC) &&
        nonWordOpt rest.head? then
      some ⟨[d1, d2, d3, d4, '-', m1, m2, '-', a1, a2]⟩
    else none
  | _ => none

def isoFrom : Option Char → List Char → Option String
  | _, [] => none
  | prev, c :: cs =>
    match isoHere prev (c :: cs) with
    | some s => some s
    | none => isoFrom (some c) cs

/-- `_parse_date` from src/dialogue.py (lines 245-257); `$`-free pattern,
so end-of-string is the only anchor modelled. -/
def parse_date (clk : Clock) (text : String) : Option String :=
  let t := lowerS (trimS text)
  if hasSubS "today" t then some clk.todayStr
  else if hasSubS "yesterday" t then some clk.yesterdayStr
  else isoFrom none t.data

/-! #### `_extract_accident_location`'s pattern
`\bin\s+([A-Za-zÀ-ž\- ]+?)(?:,\s*([A-Za-zÀ-ž\- ]+))?(?:[.!?]|$)`, IGNORECASE. -/

def locClass (c : Char) : Bool :=
  isAlphaC c || (0xC0 ≤ c.toNat ∧ c.toNat ≤ 0x17E) || c = '-' || c = ' '

def isSentEnd (c : Char) : Bool := c = '.' ∨ c = '!' ∨ c = '?'

/-- Try the optional `,`-group then the bare terminator with the current
lazy group-1 (reversed in `g1rev`). -/
def locBranches (g1rev rest : List Char) : Option (List Char × Option (List Char)) :=
  let comma : Option (List Char × Option (List Char)) :=
    match rest with
    | ',' :: r2 =>
      let r3 := r2.dropWhile isWSC
      let run := r3.takeWhile locClass
      let endOK : Bool :=
        match (r3.drop run.length).head? with
        | none => true
        | some c => isSentEnd c
      if run ≠ [] ∧ endOK then some (g1rev.reverse, some run) else none
    | _ => none
  match comma with
  | some r => some r
  | none =>
    match rest with
    | [] => some (g1rev.reverse, none)
    | c :: _ => if isSentEnd c then some (g1rev.reverse, none) else none

/-- Grow the lazy group 1 one class character at a time. -/
def locLazyGo (g1rev : List Char) : List Char → Option (List Char × Option (List Char))
  | [] => locBranches g1rev []
  | c :: cs =>
    match locBranches g1rev (c :: cs) with
    | some r => some r
    | none => if locClass c then locLazyGo (c :: g1rev) cs else none

/-- Match `in\s+` here (boundary already checked), then the lazy tail. -/
def locTryHere : List Char → Option (List Char × Option (List Char))
  | c1 :: c2 :: rest =>
    if lowChar c1 = 'i' ∧ lowChar c2 = 'n' then
      let ws := rest.takeWhile isWSC
      if ws = [] then none
      else
        match rest.drop ws.length with
        | c :: cs => if locClass c then locLazyGo [c] cs else none
        | [] => none
    else none
  | _ => none

def locSearchFrom : Option Char → List Char → Option (List Char × Option (List Char))
  | _, [] => none
  | prev, c :: cs =>
    match (if nonWordOpt prev then locTryHere (c :: cs) else none) with
    | some r => some r
    | none => locSearchFrom (some c) cs

/-- `_extract_accident_location` from src/dialogue.py (lines 260-275). -/
def extract_accident_location (text : String) : Option String × Option String :=
  let t := trimS text
  match locSearchFrom none t.data with
  | none => (none, none)
  | some (g1, g2) =>
    let part1 := trimS ⟨g1⟩
    let part2 := trimS ⟨g2.getD []⟩
    if part2 ≠ "" then (some part1, some (normalize_city part2))
    else (none, some (normalize_city part1))

/-! #### Character-class runs with a trailing `\b` (shared by several
patterns): shrink a greedy run until the boundary after it holds. -/

def refClass (c : Char) : Bool := isAlnumC c || c = '-'

/-- `runRev` is the reversed greedy run; peel characters off its end until
the word boundary after the run holds, requiring at least `minLen` left. -/
def wbShrink (minLen : Nat) : List Char → List Char → Option (List Char)
  | [], _ => none
  | c :: restRev, after =>
    if minLen ≤ restRev.length + 1 ∧
        (isWordC c != (match after.head? with
                       | some d => isWordC d
                       | none => false)) then
      some (c :: restRev).reverse
    else wbShrink minLen restRev (c :: after)

/-! #### `\b(?:report|ref|reference|case)\s*#?\s*([A-Za-z0-9\-]+)\b`,
IGNORECASE (police report reference). -/

def refTail (l : List Char) : Option (List Char) :=
  let l1 := l.dropWhile isWSC
  let l2 := match l1 with
            | '#' :: r => r.dropWhile isWSC
            | _ => l1
  let run := l2.takeWhile refClass
  if run = [] then none else wbShrink 1 run.reverse (l2.drop run.length)

def refKwTry (w : String) (l : List Char) : Option (List Char) :=
  if lowLeads w.data l then refTail (l.drop w.length) else none

def refTryHere (l : List Char) : Option (List Char) :=
  match refKwTry "report" l with
  | some g => some g
  | none =>
    match refKwTry "ref" l with
    | some g => some g
    | none =>
      match refKwTry "reference" l with
      | some g => some g
      | none => refKwTry "case" l

def refSearchFrom : Option Char → List Char → Option (List Char)
  | _, [] => none
  | prev, c :: cs =>
    match (if nonWordOpt prev then refTryHere (c :: cs) else none) with
    | some g => some g
    | none => refSearchFrom (some c) cs

def police_ref? (text : String) : Option String :=
  (refSearchFrom none text.data).map (fun g => ⟨g⟩)

/-! #### `\b([A-Za-z0-9][A-Za-z0-9\-]{4,})\b` (policy-number fallback). -/

def fallbackTryHere : List Char → Option (List Char)
  | c :: cs =>
    if isAlnumC c then
      let run := cs.takeWhile refClass
      match wbShrink 4 run.reverse (cs.drop run.length) with
      | some g => some (c :: g)
      | none => none
    else none
  | [] => none

def fallbackSearchFrom : Option Char → List Char → Option (List Char)
  | _, [] => none
  | prev, c :: cs =>
    match (if nonWordOpt prev then fallbackTryHere (c :: cs) else none) with
    | some g => some g
    | none => fallbackSearchFrom (some c) cs

def policy_fallback? (text : String) : Option String :=
  (fallbackSearchFrom none text.data).map (fun g => ⟨g⟩)

/-! ### Topical predicates from src/dialogue.py -/

/-- `_looks_like_insurance_request` (lines 47-58); `t` is already lowered. -/
def looks_like_insurance_request (t : String) : Bool :=
  ["need insurance", "want insurance", "looking for insurance", "get insurance",
   "buy insurance", "insurance for my car"].any (fun p => hasSubS p t)

/-- `_looks_like_pricing` (lines 152-153). -/
def looks_like_pricing (t : String) : Bool :=
  ["pricing", "prcing", "price", "cost", "quote", "premium", "how much"].any
    (fun k => hasSubS k t)

/-- `_looks_like_claim_info_only` (lines 156-159). -/
def looks_like_claim_info_only (t : String) : Bool :=
  (["claim", "claims", "claiming", "report", "reporting"].any (fun p => hasSubS p t)) &&
  ([("don" ++ apos ++ "t want to submit" : String), "do not want to submit",
    "not submit", "not to submit", "just info", "information", "explain",
    "tell me"].any (fun n => hasSubS n t))

/-- `_is_dissatisfied` (lines 179-194). -/
def is_dissatisfied (t : String) : Bool :=
  ["not precise", "irrelevant", "wrong", "useless", "stupid", "idiot",
   "you are not helping", "what are you talking about",
   ("why you don" ++ apos ++ "t provide" : String), "why dont you provide",
   ("why don" ++ apos ++ "t answer" : String), "why dont answer"].any
    (fun b => hasSubS b t)

/-- `_first_sentence` (lines 136-144): collapse whitespace, take the text up
to the first whitespace run preceded by `.`/`!`/`?`, ellipsize at `max_len`. -/
def pyWordsGo : List Char → List Char → List (List Char)
  | acc, [] => if acc = [] then [] else [acc.reverse]
  | acc, c :: cs =>
    if isWSC c then
      if acc = [] then pyWordsGo [] cs else acc.reverse :: pyWordsGo [] cs
    else pyWordsGo (c :: acc) cs

/-- `" ".join(s.split())`. -/
def squashWS (s : String) : String :=
  ⟨(pyWordsGo [] s.data).intersperse [' '] |>.flatten⟩

/-- The text before the first `(?<=[.!?])\s+` split point. -/
def sentHeadGo (prev : Option Char) : List Char → List Char
  | [] => []
  | c :: cs =>
    let prevEnd : Bool :=
      match prev with
      | some p => isSentEnd p
      | none => false
    if isWSC c && prevEnd then []
    else c :: sentHeadGo (some c) cs

def first_sentence (text : String) (max_len : Nat) : String :=
  let t := squashWS (trimS text)
  if t = "" then ""
  else
    let sent := sentHeadGo none t.data
    if max_len < sent.length then
      ⟨(sent.take (max_len - 1)).reverse.dropWhile isWSC |>.reverse⟩ ++ "…"
    else ⟨sent⟩

/-- `_is_bad_sentence` (lines 147-149). -/
def is_bad_sentence (s : String) : Bool :=
  let s := trimS s
  s.data.length < 12 || s = "." || s = "…" ||
    (s.data ≠ [] && s.data.all (fun c => !isWordC c))

def COVERAGE_SUMMARY_basic : String :=
  "Basic: third-party liability only (covers damage/injury you cause to others)."
def COVERAGE_SUMMARY_standard : String :=
  "Standard: liability + collision/own-damage (deductible applies)."
def COVERAGE_SUMMARY_premium : String :=
  "Premium: broadest cover (liability + collision + theft/fire/weather) and optional add-ons like roadside assistance."

/-- `_coverage_difference_answer` (lines 169-176). -/
def coverage_difference_answer : String :=
  "Differences: " ++ COVERAGE_SUMMARY_basic ++ " " ++ COVERAGE_SUMMARY_standard ++
    " " ++ COVERAGE_SUMMARY_premium ++
    " Do you want the cheapest option or the most coverage?"

def HUMAN_FALLBACK : String :=
  "I don" ++ apos ++ "t have enough information for more. You can say " ++ apos ++
    "human agent" ++ apos ++ " to be connected to our service center or check our website."

/-! ### Claim intake -/

def CLAIM_ORDER : List String :=
  ["insurance_number", "injuries", "accident_city", "accident_date",
   "accident_description", "police_report", "vehicle_drivable",
   "third_party_involved"]

/-- `_claim_missing_slots` (lines 197-208). -/
def claim_missing_slots (slots : Slots) : List String :=
  CLAIM_ORDER.filter (fun k => !slotHas slots k)

/-- `_ask_claim_question` (lines 211-228). -/
def ask_claim_question (missing_key : String) : String :=
  if missing_key = "insurance_number" then
    "What is your insurance/policy number? (You can read it as it appears on your policy card.)"
  else if missing_key = "injuries" then
    "Were there any injuries? Please say yes or no."
  else if missing_key = "accident_city" then
    "Which city did the accident happen in?"
  else if missing_key = "accident_date" then
    "What date did it happen? You can say " ++ apos ++ "today" ++ apos ++ ", " ++
      apos ++ "yesterday" ++ apos ++ ", or a date like 2025-12-22."
  else if missing_key = "accident_description" then
    "Briefly, what happened? One sentence is enough."
  else if missing_key = "police_report" then
    "Was the police notified? Please say yes or no. If yes, do you have a report/reference number?"
  else if missing_key = "vehicle_drivable" then
    "Is your car drivable right now? Please say yes or no."
  else if missing_key = "third_party_involved" then
    "Were other vehicles involved? Please say yes or no."
  else "Can you tell me a bit more?"

/-- `_claim_update_from_text` (lines 278-302). -/
def claim_update_from_text (clk : Clock) (user_text : String) (slots : Slots) : Slots :=
  let tl := trimS (lowerS user_text)
  let loc := extract_accident_location user_text
  let slots := setIfAbsent slots "accident_city" (loc.2.map vStr)
  let slots := setIfAbsent slots "accident_area" (loc.1.map vStr)
  let slots := setIfAbsent slots "accident_date" ((parse_date clk user_text).map vStr)
  let slots :=
    setIfAbsent slots "accident_description"
      (if parse_yes_no user_text = none ∧ 8 < (trimS user_text).data.length ∧
          (["accident", "crash", "collision", "rear-ended", "hit", "bumped"].any
            (fun w => hasSubS w tl)) then
        some (vStr (trimS user_text))
      else none)
  setOpt slots "police_report_ref" ((police_ref? user_text).map vStr)

/-- `_claim_apply_expected_answer` (lines 305-373).  A `claim_expected`
value that is not a (nonempty) string matches no branch and leaves the
slots unchanged, exactly as in the source. -/
def claim_apply_expected_answer (clk : Clock) (user_text : String) (slots : Slots) : Slots :=
  match slotGet? slots "claim_expected" with
  | some (vStr expected) =>
    if expected = "" then slots
    else
      let yn := parse_yes_no user_text
      if expected = "injuries" ∨ expected = "vehicle_drivable" ∨
          expected = "third_party_involved" then
        match yn with
        | some b => slotPop (slotSet slots expected (vBool b)) "claim_expected"
        | none => slots
      else if expected = "police_report" then
        match yn with
        | some b =>
          let slots := slotSet slots "police_report" (vBool b)
          let slots :=
            if b then
              match police_ref? user_text with
              | some r => slotSet slots "police_report_ref" (vStr r)
              | none => slots
            else slots
          slotPop slots "claim_expected"
        | none => slots
      else if expected = "accident_date" then
        match parse_date clk user_text with
        | some d => slotPop (slotSet slots "accident_date" (vStr d)) "claim_expected"
        | none => slots
      else if expected = "accident_city" then
        let loc := extract_accident_location user_text
        let city :=
          match loc.2 with
          | some c => some c
          | none =>
            let candidate :=
              trimS ⟨(trimS user_text).data.takeWhile
                       (fun c => ¬ (c = ',' ∨ c = '.' ∨ c = '!' ∨ c = '?' ∨ c = ';'))⟩
            if 2 ≤ candidate.data.length ∧ candidate.data.length ≤ 40 ∧
                candidate.data.all (fun c => !isDigitC c) then
              some (normalize_city candidate)
            else none
        match city with
        | some c =>
          let slots := slotSet slots "accident_city" (vStr c)
          let slots :=
            match loc.1 with
            | some area => slotSet slots "accident_area" (vStr area)
            | none => slots
          slotPop slots "claim_expected"
        | none => slots
      else if expected = "insurance_number" ∨ expected = "policy_number" then
        let txt := trimS user_text
        let pn := extract_policy_number txt
        if pn ≠ "" then
          slotPop (slotSet slots "insurance_number" (vStr pn)) "claim_expected"
        else
          match policy_fallback? txt with
          | some g => slotPop (slotSet slots "insurance_number" (vStr g)) "claim_expected"
          | none => slots
      else if expected = "accident_description" then
        let txt := trimS user_text
        if 5 < txt.data.length then
          slotPop (slotSet slots "accident_description" (vStr txt)) "claim_expected"
        else slots
      else slots
  | some _ => slots
  | none => slots

/-! ### Claim numbers -/

def ctrGet (m : List (String × Nat)) (k : String) : Nat :=
  ((m.find? (fun p => p.1 = k)).map (·.2)).getD 0

def ctrSet (m : List (String × Nat)) (k : String) (v : Nat) : List (String × Nat) :=
  if (m.find? (fun p => p.1 = k)).isSome then
    m.map (fun p => if p.1 = k then (k, v) else p)
  else m ++ [(k, v)]

/-- `"%05d"`-style zero padding (width at least 5). -/
def pad5 (n : Nat) : String :=
  let s := natToStr n
  ⟨List.replicate (5 - s.data.length) '0'⟩ ++ s

/-- The current month's counter as stored in the slots (a non-dict value
is replaced by `{}`, line 381-382). -/
def countersOf (slots : Slots) : List (String × Nat) :=
  match slotGet? slots "claim_counters" with
  | some (vCtr m) => m
  | _ => []

/-- `_generate_claim_number` (lines 376-388): bump the month-scoped
counter and render `YYYYMM` + the zero-padded count. -/
def generate_claim_number (clk : Clock) (slots : Slots) : String × Slots :=
  let counters := countersOf slots
  let n := ctrGet counters clk.yyyymm + 1
  (clk.yyyymm ++ pad5 n,
   slotSet slots "claim_counters" (vCtr (ctrSet counters clk.yyyymm n)))

/-! ### src/nlu.py: entity extraction -/

def COVERAGE_ALIASES : List (String × List String) :=
  [("basic", ["basic", "minimum", "liability", "low", "budget", "economy",
              "starter", "cheapest"]),
   ("standard", ["standard", "normal", "regular", "medium", "typical",
                 "mid-tier", "moderate"]),
   ("premium", ["premium", "full", "comprehensive", "high", "best",
                "top-tier", "ultimate"])]

/-- `(\d+)\s*(?:hp|horsepower)`, IGNORECASE: leftmost digit run directly
followed (modulo whitespace) by `hp`/`horsepower`. -/
def hpTryHere (l : List Char) : Option Nat :=
  let run := l.takeWhile isDigitC
  if run = [] then none
  else
    let r2 := (l.drop run.length).dropWhile isWSC
    if lowLeads "hp".data r2 || lowLeads "horsepower".data r2 then
      some (digitsVal run)
    else none

def hpSearch : List Char → Option Nat
  | [] => none
  | c :: cs =>
    match hpTryHere (c :: cs) with
    | some n => some n
    | none => hpSearch cs

/-! #### `\b(?:engine\s*size\s*(?:is|=)\s*)?(\d\.\d)\s*(?:l|litre|liter)?\b`
on the lowered text.  After the digits the tail always matches when at
least one whitespace character follows (the boundary between the final
digit and the whitespace); with no whitespace it needs a unit with a
boundary after it, or a non-word/absent next character. -/

def unitWB (u : String) (l : List Char) : Bool :=
  leadsL u.data l && nonWordOpt (l.drop u.data.length).head?

def esTail (rest : List Char) : Bool :=
  let ws := rest.takeWhile isWSC
  if ws ≠ [] then true
  else
    unitWB "l" rest || unitWB "litre" rest || unitWB "liter" rest ||
      nonWordOpt rest.head?

/-- `\d\.\d` here plus the unit tail; yields the value. -/
def esDigitsHere : List Char → Option ℚ
  | d1 :: '.' :: d2 :: rest =>
    if isDigitC d1 && isDigitC d2 && esTail rest then
      some ((d1.toNat - 48 : ℕ) + (d2.toNat - 48 : ℕ) / (10 : ℚ))
    else none
  | _ => none

/-- The optional `engine\s*size\s*(?:is|=)\s*` lead-in, then the digits. -/
def esWithLeadIn (l : List Char) : Option ℚ :=
  if leadsL "engine".data l then
    let r1 := (l.drop 6).dropWhile isWSC
    if leadsL "size".data r1 then
      let r2 := (r1.drop 4).dropWhile isWSC
      match r2 with
      | 'i' :: 's' :: r3 => esDigitsHere (r3.dropWhile isWSC)
      | '=' :: r3 => esDigitsHere (r3.dropWhile isWSC)
      | _ => none
    else none
  else none

def esSearchFrom : Option Char → List Char → Option ℚ
  | _, [] => none
  | prev, c :: cs =>
    match (if nonWordOpt prev then
             match esWithLeadIn (c :: cs) with
             | some q => some q
             | none => esDigitsHere (c :: cs)
           else none) with
    | some q => some q
    | none => esSearchFrom (some c) cs

/-! #### `\b(?:in|city)\s+([A-Za-zÀ-ž\- ]{2,})` (case-sensitive, on the
original-case text).  `\s+` is greedy; when the maximal-whitespace split
leaves fewer than 2 class characters, backtracking hands trailing spaces
to the group. -/

def cityGroup : Nat → List Char → Option (List Char)
  | 0, _ => none
  | j + 1, rest =>
    let grp := (rest.drop (j + 1)).takeWhile locClass
    if 2 ≤ grp.length then some grp else cityGroup j rest

def cityTryHere (l : List Char) : Option (List Char) :=
  let kwLen : Option Nat :=
    if leadsL "in".data l then some 2
    else if leadsL "city".data l then some 4
    else none
  match kwLen with
  | none => none
  | some k =>
    let rest := l.drop k
    let ws := rest.takeWhile isWSC
    if ws = [] then none else cityGroup ws.length rest

def citySearchFrom : Option Char → List Char → Option (List Char)
  | _, [] => none
  | prev, c :: cs =>
    match (if nonWordOpt prev then cityTryHere (c :: cs) else none) with
    | some g => some g
    | none => citySearchFrom (some c) cs

/-! #### `\b(19[5-9]\d|20[0-2]\d)\b` (vehicle year). -/

def yearHere (prev : Option Char) : List Char → Option Nat
  | c1 :: c2 :: c3 :: c4 :: rest =>
    if nonWordOpt prev && isDigitC c4 && nonWordOpt rest.head? &&
        ((c1 = '1' && c2 = '9' && '5' ≤ c3 && c3 ≤ '9') ||
         (c1 = '2' && c2 = '0' && '0' ≤ c3 && c3 ≤ '2')) then
      some (digitsVal [c1, c2, c3, c4])
    else none
  | _ => none

def yearSearchFrom : Option Char → List Char → Option Nat
  | _, [] => none
  | prev, c :: cs =>
    match yearHere prev (c :: cs) with
    | some n => some n
    | none => yearSearchFrom (some c) cs

/-- `^\s*(\d{1,4})\s*$`: the whole text is 1-4 digits modulo whitespace. -/
def bareNumber? (t : String) : Option Nat :=
  let core := trimL t.data
  if core ≠ [] ∧ core.all isDigitC ∧ core.length ≤ 4 then some (digitsVal core)
  else none

/-- `(\d+)\s*(?:year|yr)[s]?\s*(?:old)?`, IGNORECASE: the optional pieces
constrain nothing, so a match is a digit run followed (modulo whitespace)
by `year`/`yr`. -/
def ageTryHere (l : List Char) : Option Nat :=
  let run := l.takeWhile isDigitC
  if run = [] then none
  else
    let r2 := (l.drop run.length).dropWhile isWSC
    if lowLeads "year".data r2 || lowLeads "yr".data r2 then some (digitsVal run)
    else none

def ageSearch : List Char → Option Nat
  | [] => none
  | c :: cs =>
    match ageTryHere (c :: cs) with
    | some n => some n
    | none => ageSearch cs

/-- `extract_entities` from src/nlu.py (lines 61-113).  The
`existing_slots` parameter of the source is accepted and, as in the
source, never read. -/
def eeCity (g : List Char) : String :=
  let city :=
    trimS ⟨(trimL g).takeWhile
             (fun c => ¬ (c = ',' ∨ c = '.' ∨ c = '!' ∨ c = '?' ∨ c = ';'))⟩
  if lowerS city = "ljublajan" ∨ lowerS city = "ljublijana" ∨
      lowerS city = "ljubljana" then "Ljubljana"
  else city

def extract_entities (user_text : String) (_existing_slots : Slots) : Slots :=
  let t := trimS user_text
  let tl := lowerS t
  let out : Slots := []
  let out :=
    setOpt out "coverage_level"
      ((COVERAGE_ALIASES.find? (fun p => p.2.any (fun w => hasSubS w tl))).map
        (fun p => vStr p.1))
  let out := setOpt out "horsepower" ((hpSearch t.data).map (fun n => vInt n))
  let out :=
    setOpt out "engine_size_l"
      ((esSearchFrom none tl.data).bind
        (fun es => if 8 / 10 ≤ es ∧ es ≤ 8 then some (vRat es) else none))
  let out :=
    setOpt out "city" ((citySearchFrom none t.data).map (fun g => vStr (eeCity g)))
  let out := setOpt out "vehicle_year" ((yearSearchFrom none tl.data).map (fun y => vInt y))
  -- the bare 1-4 digit utterance: year if in [1950, 2025], else age if in (0, 60]
  let out :=
    setOpt out "vehicle_year"
      ((bareNumber? t).bind
        (fun n => if 1950 ≤ n ∧ n ≤ 2025 then some (vInt n) else none))
  let out :=
    setOpt out "vehicle_age"
      ((bareNumber? t).bind
        (fun n => if ¬ (1950 ≤ n ∧ n ≤ 2025) ∧ 0 < n ∧ n ≤ 60 then some (vInt n)
                  else none))
  let out := setOpt out "vehicle_age" ((ageSearch t.data).map (fun a => vInt a))
  out

/-! ### Session state, turn results, RAG interface -/

structure SessionState where
  slots : Slots
  last_intent : Option String
  turns : Nat
deriving DecidableEq, Repr

structure TurnResult where
  response_text : String
  end_call : Bool
deriving DecidableEq, Repr

/-- `DocChunk` from src/rag.py. -/
structure DocChunk where
  doc_id : String
  chunk_id : String
  text : String
  score : ℚ
deriving DecidableEq

/-- The retrieval collaborator: `rag.retrieve(query, top_k)`. -/
abbrev Retrieve := String → Nat → List DocChunk

/-! ### Premium quote helpers -/

def PREMIUM_ORDER : List String := ["vehicle_age", "horsepower", "city", "coverage_level"]

/-- `_missing_premium_slots` (lines 418-420). -/
def missing_premium_slots (slots : Slots) : List String :=
  PREMIUM_ORDER.filter (fun k => !slotHas slots k)

/-- `_ask_one_missing` (lines 423-437). -/
def ask_one_missing (missing : List String) (slots : Slots) : String :=
  match missing with
  | [] => "What detail should we adjust?"
  | k :: _ =>
    if k = "vehicle_age" then "What’s the vehicle year (e.g., 2010) or age in years?"
    else if k = "horsepower" then
      if slotHas slots "engine_size_l" then
        "I can estimate horsepower from engine size—do you want that, or do you know the exact HP?"
      else
        "About how many horsepower is the vehicle? If you don’t know, tell me engine size (e.g., 1.4 / 1.6)."
    else if k = "city" then "Which city is the vehicle primarily used in?"
    else if k = "coverage_level" then "Do you want basic, standard, or premium coverage?"
    else "Could you tell me " ++ k ++ "?"

/-! ### `_qa_answer_or_followup` (lines 440-501) -/

def qa_answer_or_followup (user_text : String) (docs : List DocChunk)
    (slots : Slots) : Option (String × Slots) :=
  let t := trimS (lowerS user_text)
  match pyInt? (slotGetD slots "qa_turns" (vInt 0)) with
  | none => none
  | some qaTurns0 =>
  let slots := slotSet slots "qa_turns" (vInt (qaTurns0 + 1))
  match pyInt? (slotGetD slots "qa_frustration" (vInt 0)) with
  | none => none
  | some fr0 =>
  let fr := if is_dissatisfied t then fr0 + 1 else max 0 (fr0 - 1)
  let slots := slotSet slots "qa_frustration" (vInt fr)
  let qa_turns := qaTurns0 + 1
  let website :=
    if qa_turns = 1 then
      " You can also review details on our website for the full wording."
    else ""
  let human :=
    if 5 ≤ qa_turns ∧ 2 ≤ fr then " If you’d rather speak to a person, type human."
    else ""
  if looks_like_insurance_request t then
    some ("Sure — I can help you get car insurance. Let’s start with the vehicle year.",
          slotSet slots "force_intent" (vStr "premium_estimate"))
  else if looks_like_claim_info_only t then
    let candidate :=
      match docs.head? with
      | some b => if b.text ≠ "" then first_sentence b.text 140 else ""
      | none => ""
    let base :=
      if !is_bad_sentence candidate then candidate
      else "Claims info: you can report online/phone, then provide incident details and evidence."
    some (base ++ website ++
          " What part of claims do you want (steps, documents, timelines, or coverage)?" ++
          human, slots)
  else if looks_like_pricing t then
    let slots := slotSet slots "force_intent" (vStr "premium_estimate")
    if !slotHas slots "vehicle_age" ∧ !slotHas slots "vehicle_year" then
      some ("Sure — I can estimate pricing. What’s the vehicle year (e.g., 2010)?" ++ human,
            slots)
    else
      some ("Sure — I can estimate pricing. " ++
            ask_one_missing (missing_premium_slots slots) slots ++ human, slots)
  else if ["plans", "plan", "options", "offer", "coverage levels", "coverage level",
           "levels you offer"].any (fun p => hasSubS p t) then
    some ("We offer 3 coverage levels: Basic, Standard, and Premium." ++ website ++
          " Want the differences between them?" ++ human, slots)
  else if ["difference", "differences", "compare", "comparison",
           "what are the differences", "what is their differences"].any
            (fun p => hasSubS p t) then
    some (coverage_difference_answer ++ human, slots)
  else if ["how many", "number of", "how many models", "how many plans",
           "how many options"].any (fun p => hasSubS p t) then
    some ("We offer 3 options (Basic, Standard, Premium). Do you want the cheapest or the most coverage?" ++
          human, slots)
  else if ["what are you talking about", "huh",
           ("doesn" ++ apos ++ "t make sense" : String), "irrelevant"].any
            (fun p => hasSubS p t) then
    some ("Got it — are you asking about coverage levels, pricing, or claim reporting?" ++
          human, slots)
  else
    match docs.head? with
    | none => some (HUMAN_FALLBACK, slots)
    | some best =>
      if best.text = "" then some (HUMAN_FALLBACK, slots)
      else
        let candidate := first_sentence best.text 140
        let base :=
          if !is_bad_sentence candidate then candidate
          else "I can answer that, but I need one detail first."
        let follow :=
          if hasSubS "deductible" t then
            "Which coverage level (basic, standard, premium)?"
          else if hasSubS "exclusion" t ∨ hasSubS "excluded" t ∨
              hasSubS "not covered" t then
            "Which situation (theft, drunk driving, intentional damage, etc.)?"
          else if hasSubS "roadside" t ∨ hasSubS "replacement" t then
            "Do you want roadside assistance and a replacement vehicle included?"
          else
            "What specific part do you want to know (coverage, deductible, exclusions, or claims)?"
        some (base ++ website ++ " " ++ follow ++ human, slots)

/-! ### `dialogue_manager` (lines 504-713)

The per-turn orchestrator.  It is split into the entity-merge stage, the
intent-resolution pipeline and one function per dispatch branch, composed
exactly in the source's order.  `Option` models the uncaught-exception
paths (`int(...)`/`coverage_factor_map[...]`). -/

def EXIT_RESPONSE : String := "Okay — ending the call. Goodbye!"

def TRANSFER_RESPONSE : String :=
  "Okay — I’m transferring you to a human agent now. (Prototype: transfer simulated.)"

/-- Lines 515-516: `state.slots.update(extract_entities(...))`. -/
def merge_ents (user_text : String) (slots : Slots) : Slots :=
  (extract_entities user_text slots).foldl (fun s p => slotSet s p.1 p.2) slots

/-- Lines 518-519: re-normalize the `city` slot when present. -/
def city_renorm (slots : Slots) : Slots :=
  if slotHas slots "city" then
    slotSet slots "city" (vStr (normalize_city (pyStr (slotGetD slots "city" (vStr "")))))
  else slots

/-- Lines 521-527: derive `vehicle_age` from `vehicle_year`
(`try/except: pass` around the `int(...)`). -/
def year_to_age (clk : Clock) (slots : Slots) : Slots :=
  if slotHas slots "vehicle_year" then
    match pyInt? (slotGetD slots "vehicle_year" (vInt 0)) with
    | some y =>
      if 1950 ≤ y ∧ y ≤ clk.currentYear then
        slotSet slots "vehicle_age" (vInt (clk.currentYear - y))
      else slots
    | none => slots
  else slots

def ageIsDigits (l : List Char) : Option Nat :=
  let run := l.takeWhile isDigitC
  if run ≠ [] ∧ run.length ≤ 2 ∧ nonWordOpt (l.drop run.length).head? then
    some (digitsVal run)
  else none

/-- One attempt of `\bage\s*(is)?\s*(\d{1,2})\b` (`is`-present first). -/
def ageIsHere (l : List Char) : Option Nat :=
  if leadsL "age".data l then
    let r1 := (l.drop 3).dropWhile isWSC
    match ageIsDigits (match r1 with
                       | 'i' :: 's' :: r2 => r2.dropWhile isWSC
                       | _ => r1) with
    | some n => some n
    | none => ageIsDigits r1
  else none

def ageIsFrom : Option Char → List Char → Option Nat
  | _, [] => none
  | prev, c :: cs =>
    match (if nonWordOpt prev then ageIsHere (c :: cs) else none) with
    | some n => some n
    | none => ageIsFrom (some c) cs

/-- `re.fullmatch(r"\d{1,2}", t)` (line 533). -/
def bareAge? (t : String) : Option Nat :=
  if t.data ≠ [] ∧ t.data.all isDigitC ∧ t.data.length ≤ 2 then
    some (digitsVal t.data)
  else none

/-- Lines 529-536: opportunistic vehicle-age parsing. -/
def age_fill (t : String) (last_intent : Option String) (slots : Slots) : Slots :=
  if !slotHas slots "vehicle_age" then
    match ageIsFrom none t.data with
    | some n => slotSet slots "vehicle_age" (vInt n)
    | none =>
      match bareAge? t with
      | some age =>
        if 0 < age ∧ age < 100 ∧ last_intent = some "premium_estimate" then
          slotSet slots "vehicle_age" (vInt age)
        else slots
      | none => slots
  else slots

/-- Lines 515-536: entity merge, city re-normalization, year→age
derivation, opportunistic age parsing.  `t` is the lowered trimmed text,
`last_intent` the *previous* turn's intent. -/
def entity_merge (clk : Clock) (user_text t : String) (last_intent : Option String)
    (slots : Slots) : Slots :=
  age_fill t last_intent (year_to_age clk (city_renorm (merge_ents user_text slots)))

def SHOPPING_SIGNALS : List String :=
  ["cheapest", "lowest", "option", "basic coverage", "liability", "minimum coverage"]

def YES_LIST : List String := ["yes", "yes please", "ok", "okay", "sure", "da", "ya"]

/-- Lines 539-577: intent resolution plus the override cascade.  Returns
the final intent result and the (possibly cancel-modified) slots. -/
def resolve_intent (user_text t : String) (last_intent : Option String)
    (slots : Slots) : IntentResult × Slots :=
  let ir := detect_intent user_text last_intent
  let forced := slotGet? slots "force_intent"
  let slots := slotPop slots "force_intent"
  let ir :=
    match forced with
    | some v => if pyTruthy v then ⟨pyStr v, 99 / 100⟩ else ir
    | none => ir
  let step :=
    if slotTruthy slots "in_claim_intake" then
      if contains_any t CANCEL_WORDS then
        ((⟨"doc_qa", 6 / 10⟩ : IntentResult),
         slotPop (slotSet slots "in_claim_intake" (vBool false)) "claim_expected")
      else ((⟨"report_claim", 95 / 100⟩ : IntentResult), slots)
    else (ir, slots)
  let ir := step.1
  let slots := step.2
  let ir :=
    if ir.intent = "doc_qa" ∧ contains_any t SHOPPING_SIGNALS then
      ⟨"premium_estimate", max ir.confidence (8 / 10)⟩
    else ir
  let ir :=
    if ir.intent = "report_claim" ∧ looks_like_claim_info_only t then
      ⟨"doc_qa", 85 / 100⟩
    else ir
  let ir :=
    if ir.intent = "doc_qa" ∧ YES_LIST.contains t ∧
        last_intent = some "premium_estimate" then
      if missing_premium_slots slots = [] then ⟨"compare_coverage", 9 / 10⟩
      else ⟨"premium_estimate", 9 / 10⟩
    else ir
  if last_intent = some "premium_estimate" ∧ ir.intent = "doc_qa" then
    (⟨"premium_estimate", max ir.confidence (75 / 100)⟩, slots)
  else (ir, slots)

/-- Lines 593-628: the claim-intake dispatch branch (always succeeds). -/
def claim_intake_turn (clk : Clock) (user_text : String) (slots : Slots) :
    TurnResult × Slots :=
  let slots := slotSet slots "in_claim_intake" (vBool true)
  let slots := claim_update_from_text clk user_text slots
  let slots := claim_apply_expected_answer clk user_text slots
  match claim_missing_slots slots with
  | next_key :: _ =>
    (⟨ask_claim_question next_key, false⟩,
     slotSet slots "claim_expected" (vStr next_key))
  | [] =>
    let gcn := generate_claim_number clk slots
    let claim_no := gcn.1
    let slots := gcn.2
    let slots := slotSet slots "claim_number" (vStr claim_no)
    let slots := slotSet slots "in_claim_intake" (vBool false)
    let slots := slotPop slots "claim_expected"
    let area := slotGet? slots "accident_area"
    let city := slotGet? slots "accident_city"
    let truthy : Option Val → Bool := fun o =>
      match o with
      | some v => pyTruthy v
      | none => false
    let loc :=
      if truthy area ∧ truthy city then
        pyStr ((area.getD (vStr ""))) ++ ", " ++ pyStr ((city.getD (vStr "")))
      else if truthy city then pyStr (city.getD (vStr ""))
      else "the provided location"
    (⟨"Thanks — I’ve recorded your claim details.\n" ++
      "Next steps:\n" ++
      "1) If anyone is injured or there is danger, contact emergency services.\n" ++
      "2) Take photos of the scene, vehicle damage, plates, and road signs.\n" ++
      "3) Collect third-party and witness contacts if available.\n" ++
      "4) Keep receipts for towing/urgent costs.\n\n" ++
      "Summary: Accident in " ++ loc ++ " on " ++
      (match slotGet? slots "accident_date" with
       | some v => pyStr v
       | none => "unknown date") ++ ". " ++
      "Injuries: " ++ (if slotTruthy slots "injuries" then "yes" else "no") ++ ".\n" ++
      "Your claim number is " ++ claim_no ++ ".", false⟩, slots)

/-- `\b(\d(?:\.\d)?)\s*(l|liter|litre)\b` (line 650). -/
def dmEngineHere (l : List Char) : Option ℚ :=
  match l with
  | d1 :: '.' :: d2 :: rest =>
    if isDigitC d1 && isDigitC d2 && dmUnitTail rest then
      some ((d1.toNat - 48 : ℕ) + (d2.toNat - 48 : ℕ) / (10 : ℚ))
    else
      match l with
      | d :: rest2 => if isDigitC d && dmUnitTail rest2 then some ((d.toNat - 48 : ℕ) : ℚ)
                      else none
      | _ => none
  | d :: rest =>
    if isDigitC d && dmUnitTail rest then some ((d.toNat - 48 : ℕ) : ℚ) else none
  | _ => none
where
  dmUnitTail (rest : List Char) : Bool :=
    let r2 := rest.dropWhile isWSC
    unitWB "l" r2 || unitWB "liter" r2 || unitWB "litre" r2

def dmEngineFrom : Option Char → List Char → Option ℚ
  | _, [] => none
  | prev, c :: cs =>
    match (if nonWordOpt prev then dmEngineHere (c :: cs) else none) with
    | some q => some q
    | none => dmEngineFrom (some c) cs

/-- Lines 630-668: the premium-estimate dispatch branch.  `none` models an
uncaught `int(...)` failure or `coverage_factor_map` `KeyError`. -/
def premium_turn (t : String) (slots : Slots) : Option (TurnResult × Slots) :=
  let slots :=
    if !slotHas slots "coverage_level" ∧ hasSubS "cheapest" t then
      slotSet slots "coverage_level" (vStr "basic")
    else slots
  let hpStep :=
    if !slotHas slots "horsepower" ∧ slotHas slots "engine_size_l" then
      match pyFloat? (slotGetD slots "engine_size_l" (vInt 0)) with
      | some es =>
        let r := estimate_hp_from_engine_size es
        (slotSet slots "horsepower" (vInt r.1),
         "(Using ~" ++ intToStr r.1 ++ " HP " ++ r.2 ++ ".) ")
      | none => (slots, "")  -- `except Exception: pass`
    else (slots, "")
  let slots := hpStep.1
  let hp_note := hpStep.2
  match missing_premium_slots slots with
  | m :: ms => some (⟨hp_note ++ ask_one_missing (m :: ms) slots, false⟩, slots)
  | [] =>
    let slots :=
      if !slotHas slots "engine_size_l" then
        match dmEngineFrom none t.data with
        | some q => slotSet slots "engine_size_l" (vRat q)
        | none => slots
      else slots
    match pyInt? (slotGetD slots "vehicle_age" (vInt 0)) with
    | none => none
    | some age =>
    match pyInt? (slotGetD slots "horsepower" (vInt 0)) with
    | none => none
    | some hp =>
    let city := pyStr (slotGetD slots "city" (vStr ""))
    let cov := lowerS (pyStr (slotGetD slots "coverage_level" (vStr "")))
    match calculate_premium? age hp city cov with
    | none => none
    | some res =>
    some (⟨"Based on a " ++ pyStr (slotGetD slots "vehicle_age" (vInt 0)) ++
           "-year-old vehicle with " ++ pyStr (slotGetD slots "horsepower" (vInt 0)) ++
           " HP in " ++ city ++ " with " ++
           pyStr (slotGetD slots "coverage_level" (vStr "")) ++
           " coverage, your estimate is about €" ++ pyStr (vRat res.monthly_eur) ++
           " per month. Want to compare basic vs standard vs premium pricing?", false⟩,
          slots)

/-- Lines 678-702: the coverage-comparison dispatch branch. -/
def compare_turn (slots : Slots) : Option (TurnResult × Slots) :=
  match missing_premium_slots slots with
  | _ :: _ => some (⟨coverage_difference_answer, false⟩, slots)
  | [] =>
    match pyInt? (slotGetD slots "vehicle_age" (vInt 0)) with
    | none => none
    | some age =>
    match pyInt? (slotGetD slots "horsepower" (vInt 0)) with
    | none => none
    | some hp =>
    let city := pyStr (slotGetD slots "city" (vStr ""))
    match calculate_premium? age hp city "basic" with
    | none => none
    | some rb =>
    match calculate_premium? age hp city "standard" with
    | none => none
    | some rs =>
    match calculate_premium? age hp city "premium" with
    | none => none
    | some rp =>
    some (⟨"Here’s a quick comparison:\n" ++
           "- Basic (liability only): €" ++ pyStr (vRat rb.monthly_eur) ++ " per month\n" ++
           "- Standard: €" ++ pyStr (vRat rs.monthly_eur) ++ " per month\n" ++
           "- Premium (most coverage): €" ++ pyStr (vRat rp.monthly_eur) ++ " per month\n\n" ++
           "Which one do you prefer?", false⟩, slots)

/-- `dialogue_manager` from src/dialogue.py (lines 504-713). -/
def dialogue_manager (clk : Clock) (rag : Retrieve) (user_text : String)
    (state : SessionState) : Option (TurnResult × SessionState) :=
  let turns := state.turns + 1
  let t := trimS (lowerS user_text)
  -- Global exit: user can always end call (lines 508-513)
  if contains_any t EXIT_WORDS then
    let slots := slotPop (slotSet state.slots "in_claim_intake" (vBool false)) "claim_expected"
    some (⟨EXIT_RESPONSE, true⟩, ⟨slots, state.last_intent, turns⟩)
  else
    let slots := entity_merge clk user_text t state.last_intent state.slots
    let rs := resolve_intent user_text t state.last_intent slots
    let ir := rs.1
    let slots := rs.2
    let slots := if ir.intent ≠ "doc_qa" then slotSet slots "qa_turns" (vInt 0) else slots
    let last_intent := some ir.intent
    -- dispatch (lines 586-713)
    if ir.intent = "handoff_human" ∨
        contains_any t ["human", "human agent", "call me back", "call back"] then
      some (⟨TRANSFER_RESPONSE, true⟩, ⟨slots, last_intent, turns⟩)
    else if ir.intent = "report_claim" then
      let r := claim_intake_turn clk user_text slots
      some (r.1, ⟨r.2, last_intent, turns⟩)
    else if ir.intent = "premium_estimate" then
      match premium_turn t slots with
      | some r => some (r.1, ⟨r.2, last_intent, turns⟩)
      | none => none
    else if last_intent = some "premium_estimate" ∧ !slotHas slots "coverage_level" ∧
        contains_any t ["difference", "compare", "comparison", "what is the difference"] then
      -- line 670-672 (unreachable: `last_intent` was just set to `ir.intent`)
      some (⟨coverage_difference_answer, false⟩, ⟨slots, last_intent, turns⟩)
    else if (last_intent = some "premium_estimate" ∨ last_intent = some "compare_coverage") ∧
        ir.intent = "doc_qa" then
      -- line 674-675 (unreachable for the same reason)
      some (⟨"Do you want to pick a coverage level (basic/standard/premium), or get a new quote with different details?",
             false⟩, ⟨slots, last_intent, turns⟩)
    else if ir.intent = "compare_coverage" then
      match compare_turn slots with
      | some r => some (r.1, ⟨r.2, last_intent, turns⟩)
      | none => none
    else
      let rag_query :=
        if ["plans", "options", "coverage", "levels"].any (fun w => hasSubS w t) then
          "auto insurance coverage levels basic standard premium differences"
        else if hasSubS "claim" t then
          "auto claim process steps required information evidence timeline"
        else user_text
      let docs := rag rag_query 3
      match qa_answer_or_followup user_text docs slots with
      | some r => some (⟨r.1, false⟩, ⟨r.2, last_intent, turns⟩)
      | none => none

/-! ### Fixed fixtures for concrete evaluations -/

/-- A concrete clock (October 2026). -/
def clkT : Clock := ⟨2026, "202610", "2026-10-12", "2026-10-11"⟩

/-- A retrieval collaborator returning no documents. -/
def ragT : Retrieve := fun _ _ => []

/-! ## Shared lemmas about the slot map -/

theorem slotGet?_set_self (k : String) (v : Val) :
    ∀ s : Slots, slotGet? (slotSet s k v) k = some v := by
  intro s
  induction s with
  | nil => simp [slotSet, slotGet?]
  | cons p rest ih =>
    by_cases h : p.1 = k
    · simp [slotSet, slotGet?, h]
    · simp [slotSet, slotGet?, h, ih]

theorem slotGet?_set_ne (k k' : String) (hne : k' ≠ k) (v : Val) :
    ∀ s : Slots, slotGet? (slotSet s k v) k' = slotGet? s k' := by
  intro s
  induction s with
  | nil => simp [slotSet, slotGet?, Ne.symm hne]
  | cons p rest ih =>
    by_cases h : p.1 = k
    · simp [slotSet, slotGet?, h, Ne.symm hne]
    · simp [slotSet, slotGet?, h, ih]

theorem slotGet?_pop_self (k : String) :
    ∀ s : Slots, slotGet? (slotPop s k) k = none := by
  intro s
  induction s with
  | nil => simp [slotPop, slotGet?]
  | cons p rest ih =>
    by_cases h : p.1 = k
    · simp [slotPop, h, ih]
    · simp [slotPop, slotGet?, h, ih]

theorem slotGet?_pop_ne (k k' : String) (hne : k' ≠ k) :
    ∀ s : Slots, slotGet? (slotPop s k) k' = slotGet? s k' := by
  intro s
  induction s with
  | nil => simp [slotPop]
  | cons p rest ih =>
    by_cases h : p.1 = k
    · have : ¬ p.1 = k' := by rw [h]; exact Ne.symm hne
      simp [slotPop, slotGet?, h, this, ih, Ne.symm hne]
    · simp [slotPop, slotGet?, h, ih]

theorem slotHas_set_self (k : String) (v : Val) (s : Slots) :
    slotHas (slotSet s k v) k = true := by
  simp [slotHas, slotGet?_set_self]

theorem slotHas_set_ne (k k' : String) (hne : k' ≠ k) (v : Val) (s : Slots) :
    slotHas (slotSet s k v) k' = slotHas s k' := by
  simp [slotHas, slotGet?_set_ne k k' hne]

theorem slotHas_set_mono (k k' : String) (v : Val) (s : Slots)
    (h : slotHas s k' = true) : slotHas (slotSet s k v) k' = true := by
  by_cases hk : k' = k
  · subst hk; exact slotHas_set_self k' v s
  · rw [slotHas_set_ne k k' hk]; exact h

theorem setOpt_get_ne (k k' : String) (hne : k' ≠ k) (o : Option Val) (s : Slots) :
    slotGet? (setOpt s k o) k' = slotGet? s k' := by
  cases o with
  | none => rfl
  | some v => exact slotGet?_set_ne k k' hne v s

theorem setIfAbsent_get_ne (k k' : String) (hne : k' ≠ k) (o : Option Val) (s : Slots) :
    slotGet? (setIfAbsent s k o) k' = slotGet? s k' := by
  cases o with
  | none => rfl
  | some v =>
    unfold setIfAbsent
    by_cases h : slotHas s k = true <;> simp [h, slotGet?_set_ne k k' hne]

theorem setOpt_has_mono (k k' : String) (o : Option Val) (s : Slots)
    (h : slotHas s k' = true) : slotHas (setOpt s k o) k' = true := by
  cases o with
  | none => exact h
  | some v => exact slotHas_set_mono k k' v s h

theorem setIfAbsent_has_mono (k k' : String) (o : Option Val) (s : Slots)
    (h : slotHas s k' = true) : slotHas (setIfAbsent s k o) k' = true := by
  cases o with
  | none => exact h
  | some v =>
    unfold setIfAbsent
    by_cases hk : slotHas s k = true <;> simp [hk, h, slotHas_set_mono _ _ _ _ h]

theorem foldlSet_get_ne (k : String) :
    ∀ (ents : Slots) (s : Slots), (∀ p ∈ ents, p.1 ≠ k) →
      slotGet? (ents.foldl (fun s p => slotSet s p.1 p.2) s) k = slotGet? s k := by
  intro ents
  induction ents with
  | nil => intro s _; rfl
  | cons p rest ih =>
    intro s h
    simp only [List.foldl_cons]
    rw [ih _ (fun q hq => h q (List.mem_cons_of_mem _ hq))]
    exact slotGet?_set_ne p.1 k (fun hk => (h p (List.mem_cons_self _ _)) hk.symm) p.2 s

theorem foldlSet_has_mono (k : String) :
    ∀ (ents : Slots) (s : Slots), slotHas s k = true →
      slotHas ((ents.foldl (fun s p => slotSet s p.1 p.2) s)) k = true := by
  intro ents
  induction ents with
  | nil => intro s h; exact h
  | cons p rest ih =>
    intro s h
    simp only [List.foldl_cons]
    exact ih _ (slotHas_set_mono _ _ _ _ h)

theorem mem_slotSet (p : String × Val) (k : String) (v : Val) :
    ∀ s : Slots, p ∈ slotSet s k v → p.1 = k ∨ p ∈ s := by
  intro s
  induction s with
  | nil => intro h; simp [slotSet] at h; left; rw [h]
  | cons q rest ih =>
    intro h
    by_cases hq : q.1 = k
    · simp only [slotSet, hq, if_true, List.mem_cons] at h
      rcases h with h | h
      · left; rw [h]
      · right; exact List.mem_cons_of_mem _ h
    · simp only [slotSet, hq, if_false, List.mem_cons] at h
      rcases h with h | h
      · right; rw [h]; exact List.mem_cons_self _ _
      · rcases ih h with h' | h'
        · left; exact h'
        · right; exact List.mem_cons_of_mem _ h'

theorem mem_setOpt (p : String × Val) (k : String) (o : Option Val) (s : Slots)
    (h : p ∈ setOpt s k o) : p.1 = k ∨ p ∈ s := by
  cases o with
  | none => right; exact h
  | some v => exact mem_slotSet p k v s h

/-- Every entity the slot extractor emits uses one of its six keys. -/
theorem extract_entities_keys (u : String) (es : Slots) :
    ∀ p ∈ extract_entities u es,
      p.1 ∈ (["coverage_level", "horsepower", "engine_size_l", "city",
              "vehicle_year", "vehicle_age"] : List String) := by
  intro p hp
  simp only [extract_entities] at hp
  rcases mem_setOpt _ _ _ _ hp with h | hp; · simp [h]
  rcases mem_setOpt _ _ _ _ hp with h | hp; · simp [h]
  rcases mem_setOpt _ _ _ _ hp with h | hp; · simp [h]
  rcases mem_setOpt _ _ _ _ hp with h | hp; · simp [h]
  rcases mem_setOpt _ _ _ _ hp with h | hp; · simp [h]
  rcases mem_setOpt _ _ _ _ hp with h | hp; · simp [h]
  rcases mem_setOpt _ _ _ _ hp with h | hp; · simp [h]
  rcases mem_setOpt _ _ _ _ hp with h | hp; · simp [h]
  cases hp

theorem merge_ents_get_ne (u : String) (s : Slots) (k : String)
    (h : k ∉ (["coverage_level", "horsepower", "engine_size_l", "city",
               "vehicle_year", "vehicle_age"] : List String)) :
    slotGet? (merge_ents u s) k = slotGet? s k :=
  foldlSet_get_ne k _ s
    (fun p hp hk => h (hk ▸ extract_entities_keys u s p hp))

theorem merge_ents_has_mono (u : String) (s : Slots) (k : String)
    (h : slotHas s k = true) : slotHas (merge_ents u s) k = true :=
  foldlSet_has_mono k _ s h

theorem city_renorm_get_ne (s : Slots) (k : String) (h : k ≠ "city") :
    slotGet? (city_renorm s) k = slotGet? s k := by
  unfold city_renorm
  split
  · exact slotGet?_set_ne "city" k h _ _
  · rfl

theorem city_renorm_has_mono (s : Slots) (k : String)
    (h : slotHas s k = true) : slotHas (city_renorm s) k = true := by
  unfold city_renorm
  split
  · exact slotHas_set_mono _ _ _ _ h
  · exact h

theorem year_to_age_get_ne (clk : Clock) (s : Slots) (k : String)
    (h : k ≠ "vehicle_age") : slotGet? (year_to_age clk s) k = slotGet? s k := by
  unfold year_to_age
  repeat' split
  all_goals first
    | rfl
    | exact slotGet?_set_ne "vehicle_age" k h _ _

theorem year_to_age_has_mono (clk : Clock) (s : Slots) (k : String)
    (h : slotHas s k = true) : slotHas (year_to_age clk s) k = true := by
  unfold year_to_age
  repeat' split
  all_goals first
    | exact h
    | exact slotHas_set_mono _ _ _ _ h

theorem age_fill_get_ne (t : String) (li : Option String) (s : Slots) (k : String)
    (h : k ≠ "vehicle_age") : slotGet? (age_fill t li s) k = slotGet? s k := by
  unfold age_fill
  repeat' split
  all_goals first
    | rfl
    | exact slotGet?_set_ne "vehicle_age" k h _ _

theorem age_fill_has_mono (t : String) (li : Option String) (s : Slots) (k : String)
    (h : slotHas s k = true) : slotHas (age_fill t li s) k = true := by
  unfold age_fill
  repeat' split
  all_goals first
    | exact h
    | exact slotHas_set_mono _ _ _ _ h

theorem entity_merge_get_ne (clk : Clock) (u t : String) (li : Option String)
    (s : Slots) (k : String)
    (h : k ∉ (["coverage_level", "horsepower", "engine_size_l", "city",
               "vehicle_year", "vehicle_age"] : List String)) :
    slotGet? (entity_merge clk u t li s) k = slotGet? s k := by
  have hc : k ≠ "city" := by intro hk; exact h (by simp [hk])
  have ha : k ≠ "vehicle_age" := by intro hk; exact h (by simp [hk])
  unfold entity_merge
  rw [age_fill_get_ne _ _ _ _ ha, year_to_age_get_ne _ _ _ ha,
    city_renorm_get_ne _ _ hc, merge_ents_get_ne _ _ _ h]

theorem entity_merge_has_mono (clk : Clock) (u t : String) (li : Option String)
    (s : Slots) (k : String) (h : slotHas s k = true) :
    slotHas (entity_merge clk u t li s) k = true := by
  unfold entity_merge
  exact age_fill_has_mono _ _ _ _ (year_to_age_has_mono _ _ _
    (city_renorm_has_mono _ _ (merge_ents_has_mono _ _ _ h)))

/-! ## Preservation lemmas for the claim-intake helpers -/

theorem claim_update_get_ne (clk : Clock) (u : String) (s : Slots) (k : String)
    (h : k ∉ (["accident_city", "accident_area", "accident_date",
               "accident_description", "police_report_ref"] : List String)) :
    slotGet? (claim_update_from_text clk u s) k = slotGet? s k := by
  simp only [List.mem_cons, not_or, List.not_mem_nil, not_false_iff, and_true] at h
  obtain ⟨h1, h2, h3, h4, h5⟩ := h
  unfold claim_update_from_text
  rw [setOpt_get_ne _ _ h5, setIfAbsent_get_ne _ _ h4, setIfAbsent_get_ne _ _ h3,
    setIfAbsent_get_ne _ _ h2, setIfAbsent_get_ne _ _ h1]

theorem claim_update_has_mono (clk : Clock) (u : String) (s : Slots) (k : String)
    (h : slotHas s k = true) :
    slotHas (claim_update_from_text clk u s) k = true := by
  unfold claim_update_from_text
  exact setOpt_has_mono _ _ _ _ (setIfAbsent_has_mono _ _ _ _
    (setIfAbsent_has_mono _ _ _ _ (setIfAbsent_has_mono _ _ _ _
      (setIfAbsent_has_mono _ _ _ _ h))))

theorem slotHas_pop_ne (k k' : String) (hne : k' ≠ k) (s : Slots) :
    slotHas (slotPop s k) k' = slotHas s k' := by
  simp [slotHas, slotGet?_pop_ne k k' hne]

/-- An unparseable yes/no answer to a boolean claim question changes nothing. -/
theorem claim_apply_noop_bool (clk : Clock) (u : String) (s : Slots) (F : String)
    (hget : slotGet? s "claim_expected" = some (vStr F))
    (hF : F ∈ (["injuries", "vehicle_drivable", "third_party_involved",
                "police_report"] : List String))
    (hyn : parse_yes_no u = none) :
    claim_apply_expected_answer clk u s = s := by
  unfold claim_apply_expected_answer
  rw [hget]
  fin_cases hF <;> simp [hyn]

/-- An unparseable date answer to the date question changes nothing. -/
theorem claim_apply_noop_date (clk : Clock) (u : String) (s : Slots)
    (hget : slotGet? s "claim_expected" = some (vStr "accident_date"))
    (hd : parse_date clk u = none) :
    claim_apply_expected_answer clk u s = s := by
  unfold claim_apply_expected_answer
  rw [hget]
  simp [hd]

/-- `_claim_apply_expected_answer` touches only claim-answer keys. -/
theorem claim_apply_get_ne (clk : Clock) (u : String) (s : Slots) (k : String)
    (h : k ∉ (["claim_expected", "injuries", "vehicle_drivable",
               "third_party_involved", "police_report", "police_report_ref",
               "accident_date", "accident_city", "accident_area",
               "insurance_number", "accident_description"] : List String)) :
    slotGet? (claim_apply_expected_answer clk u s) k = slotGet? s k := by
  simp only [List.mem_cons, not_or, List.not_mem_nil, not_false_iff, and_true] at h
  obtain ⟨hce, hinj, hvd, htp, hpr, hprr, had, hac, haa, hin, hde⟩ := h
  unfold claim_apply_expected_answer
  cases hs : slotGet? s "claim_expected" with
  | none => rfl
  | some v =>
    cases v with
    | vInt n => rfl
    | vBool b => rfl
    | vRat q => rfl
    | vCtr m => rfl
    | vStr expected =>
      dsimp only
      by_cases he : expected = ""
      · rw [if_pos he]
      · rw [if_neg he]
        by_cases h1 : expected = "injuries" ∨ expected = "vehicle_drivable" ∨
            expected = "third_party_involved"
        · rw [if_pos h1]
          cases parse_yes_no u with
          | some b =>
            have hk : k ≠ expected := by
              rcases h1 with h | h | h <;> (subst h; assumption)
            rw [slotGet?_pop_ne _ _ hce, slotGet?_set_ne _ _ hk]
          | none => rfl
        · rw [if_neg h1]
          by_cases h2 : expected = "police_report"
          · rw [if_pos h2]
            cases parse_yes_no u with
            | some b =>
              rw [slotGet?_pop_ne _ _ hce]
              cases b with
              | true =>
                simp only [if_true]
                cases police_ref? u with
                | some r =>
                  rw [slotGet?_set_ne _ _ hprr, slotGet?_set_ne _ _ hpr]
                | none => rw [slotGet?_set_ne _ _ hpr]
              | false =>
                simp only [Bool.false_eq_true, if_false]
                rw [slotGet?_set_ne _ _ hpr]
            | none => rfl
          · rw [if_neg h2]
            by_cases h3 : expected = "accident_date"
            · rw [if_pos h3]
              cases parse_date clk u with
              | some d => rw [slotGet?_pop_ne _ _ hce, slotGet?_set_ne _ _ had]
              | none => rfl
            · rw [if_neg h3]
              by_cases h4 : expected = "accident_city"
              · rw [if_pos h4]
                cases hcity : (match (extract_accident_location u).2 with
                  | some c => some c
                  | none =>
                    let candidate :=
                      trimS ⟨(trimS u).data.takeWhile
                        (fun c => ¬ (c = ',' ∨ c = '.' ∨ c = '!' ∨ c = '?' ∨ c = ';'))⟩
                    if 2 ≤ candidate.data.length ∧ candidate.data.length ≤ 40 ∧
                        candidate.data.all (fun c => !isDigitC c) then
                      some (normalize_city candidate)
                    else none) with
                | some c =>
                  dsimp only
                  rw [slotGet?_pop_ne _ _ hce]
                  cases (extract_accident_location u).1 with
                  | some area =>
                    rw [slotGet?_set_ne _ _ haa, slotGet?_set_ne _ _ hac]
                  | none => rw [slotGet?_set_ne _ _ hac]
                | none => rfl
              · rw [if_neg h4]
                by_cases h5 : expected = "insurance_number" ∨ expected = "policy_number"
                · rw [if_pos h5]
                  by_cases hpn : extract_policy_number (trimS u) ≠ ""
                  · rw [if_pos hpn, slotGet?_pop_ne _ _ hce, slotGet?_set_ne _ _ hin]
                  · rw [if_neg hpn]
                    cases policy_fallback? (trimS u) with
                    | some g => rw [slotGet?_pop_ne _ _ hce, slotGet?_set_ne _ _ hin]
                    | none => rfl
                · rw [if_neg h5]
                  by_cases h6 : expected = "accident_description"
                  · rw [if_pos h6]
                    by_cases hlen : 5 < (trimS u).data.length
                    · rw [if_pos hlen, slotGet?_pop_ne _ _ hce, slotGet?_set_ne _ _ hde]
                    · rw [if_neg hlen]
                  · rw [if_neg h6]

/-- `_claim_apply_expected_answer` never removes a claim field. -/
theorem claim_apply_has_mono (clk : Clock) (u : String) (s : Slots) (k : String)
    (hk : k ≠ "claim_expected") (h : slotHas s k = true) :
    slotHas (claim_apply_expected_answer clk u s) k = true := by
  unfold claim_apply_expected_answer
  cases hs : slotGet? s "claim_expected" with
  | none => exact h
  | some v =>
    cases v with
    | vInt n => exact h
    | vBool b => exact h
    | vRat q => exact h
    | vCtr m => exact h
    | vStr expected =>
      dsimp only
      repeat' split
      all_goals
        first
        | exact h
        | (rw [slotHas_pop_ne _ _ hk]
           repeat' apply slotHas_set_mono
           exact h)

/-! ## C5: the `detect_intent` contract -/

/-- C5: `detect_intent` is a pure function of (utterance text, previous
intent) evaluated on the lower-cased trimmed text with first-match-wins
rule order: (1) previous intent `premium_estimate` plus a premium keyword
re-affirms `premium_estimate` at 0.85; otherwise (2) compare-coverage
keywords give `compare_coverage` 0.9, (3) premium keywords give
`premium_estimate` 0.8, (4) claim keywords give `report_claim` 0.8,
(5) handoff keywords give `handoff_human` 0.7, (6) default `doc_qa` 0.6;
the confidence always lies in [0,1] and the intent in the fixed closed
set. -/
theorem C5_detect_intent_contract (user_text : String) (last_intent : Option String) :
    (0 ≤ (detect_intent user_text last_intent).confidence ∧
      (detect_intent user_text last_intent).confidence ≤ 1) ∧
    (detect_intent user_text last_intent).intent ∈
      (["doc_qa", "report_claim", "premium_estimate", "clarification",
        "handoff_human", "compare_coverage"] : List String) ∧
    ((last_intent = some "premium_estimate" ∧
        kwAny (trimS (lowerS user_text)) kwPremiumEstimate = true) →
      detect_intent user_text last_intent = ⟨"premium_estimate", 85 / 100⟩) ∧
    (¬ (last_intent = some "premium_estimate" ∧
        kwAny (trimS (lowerS user_text)) kwPremiumEstimate = true) →
      kwAny (trimS (lowerS user_text)) kwCompareCoverage = true →
      detect_intent user_text last_intent = ⟨"compare_coverage", 9 / 10⟩) ∧
    (¬ (last_intent = some "premium_estimate" ∧
        kwAny (trimS (lowerS user_text)) kwPremiumEstimate = true) →
      kwAny (trimS (lowerS user_text)) kwCompareCoverage = false →
      kwAny (trimS (lowerS user_text)) kwPremiumEstimate = true →
      detect_intent user_text last_intent = ⟨"premium_estimate", 8 / 10⟩) ∧
    (¬ (last_intent = some "premium_estimate" ∧
        kwAny (trimS (lowerS user_text)) kwPremiumEstimate = true) →
      kwAny (trimS (lowerS user_text)) kwCompareCoverage = false →
      kwAny (trimS (lowerS user_text)) kwPremiumEstimate = false →
      kwAny (trimS (lowerS user_text)) kwReportClaim = true →
      detect_intent user_text last_intent = ⟨"report_claim", 8 / 10⟩) ∧
    (¬ (last_intent = some "premium_estimate" ∧
        kwAny (trimS (lowerS user_text)) kwPremiumEstimate = true) →
      kwAny (trimS (lowerS user_text)) kwCompareCoverage = false →
      kwAny (trimS (lowerS user_text)) kwPremiumEstimate = false →
      kwAny (trimS (lowerS user_text)) kwReportClaim = false →
      kwAny (trimS (lowerS user_text)) kwHandoffHuman = true →
      detect_intent user_text last_intent = ⟨"handoff_human", 7 / 10⟩) ∧
    (¬ (last_intent = some "premium_estimate" ∧
        kwAny (trimS (lowerS user_text)) kwPremiumEstimate = true) →
      kwAny (trimS (lowerS user_text)) kwCompareCoverage = false →
      kwAny (trimS (lowerS user_text)) kwPremiumEstimate = false →
      kwAny (trimS (lowerS user_text)) kwReportClaim = false →
      kwAny (trimS (lowerS user_text)) kwHandoffHuman = false →
      detect_intent user_text last_intent = ⟨"doc_qa", 6 / 10⟩) := by
  unfold detect_intent
  dsimp only
  split_ifs with c1 c2 c3 c4 c5 <;>
    refine ⟨⟨by norm_num, by norm_num⟩, by simp, ?_, ?_, ?_, ?_, ?_, ?_⟩ <;>
    intros <;> simp_all

/-- Witness for C5 at a concrete input: "compare plans" with no previous
intent resolves by rule (2). -/
theorem C5_witness :
    detect_intent "compare plans" none = ⟨"compare_coverage", 9 / 10⟩ :=
  (C5_detect_intent_contract "compare plans" none).2.2.2.1 (by decide) (by decide)

/-! ## C4: coverage comparison prices are ordered -/

theorem round2_mono {q r : ℚ} (h : q ≤ r) : round2 q ≤ round2 r := by
  unfold round2
  have hf : (⌊q * 100 + 1 / 2⌋ : ℤ) ≤ ⌊r * 100 + 1 / 2⌋ :=
    Int.floor_le_floor (by nlinarith)
  have hf' : ((⌊q * 100 + 1 / 2⌋ : ℤ) : ℚ) ≤ ((⌊r * 100 + 1 / 2⌋ : ℤ) : ℚ) := by
    exact_mod_cast hf
  linarith

theorem city_factor_nonneg (c : String) : 0 ≤ city_factor_of c := by
  unfold city_factor_of
  split_ifs <;> norm_num

/-- C4: for a fixed tuple of `vehicle_age ≥ 0`, `horsepower ≥ 0` and city,
the coverage comparison produces exactly three prices, one per level, all
computed by `calculate_premium` from that one tuple, and the monthly
amounts satisfy basic ≤ standard ≤ premium. -/
theorem C4_compare_coverage_ordered (age hp : Int) (city : String) (slots : Slots)
    (hage : slotGet? slots "vehicle_age" = some (vInt age))
    (hhp : slotGet? slots "horsepower" = some (vInt hp))
    (hcity : slotGet? slots "city" = some (vStr city))
    (hcov : slotHas slots "coverage_level" = true)
    (h1 : 0 ≤ age) (h2 : 0 ≤ hp) :
    ∃ rb rs rp : PremiumResult,
      calculate_premium? age hp city "basic" = some rb ∧
      calculate_premium? age hp city "standard" = some rs ∧
      calculate_premium? age hp city "premium" = some rp ∧
      compare_turn slots =
        some (⟨"Here’s a quick comparison:\n" ++
               "- Basic (liability only): €" ++ pyStr (vRat rb.monthly_eur) ++ " per month\n" ++
               "- Standard: €" ++ pyStr (vRat rs.monthly_eur) ++ " per month\n" ++
               "- Premium (most coverage): €" ++ pyStr (vRat rp.monthly_eur) ++ " per month\n\n" ++
               "Which one do you prefer?", false⟩, slots) ∧
      rb.monthly_eur ≤ rs.monthly_eur ∧ rs.monthly_eur ≤ rp.monthly_eur := by
  have hM : (0 : ℚ) ≤ 25 * (1 + ((max 0 (age - 3) : ℤ) : ℚ) * (5 / 100)) *
      (1 + ((max 0 (hp - 80) : ℤ) : ℚ) * (1 / 100)) *
      city_factor_of (lowerS (trimS city)) := by
    have ha : (0 : ℚ) ≤ ((max 0 (age - 3) : ℤ) : ℚ) := by
      exact_mod_cast le_max_left 0 (age - 3)
    have hb : (0 : ℚ) ≤ ((max 0 (hp - 80) : ℤ) : ℚ) := by
      exact_mod_cast le_max_left 0 (hp - 80)
    have hc := city_factor_nonneg (lowerS (trimS city))
    have haf : (0 : ℚ) ≤ 1 + ((max 0 (age - 3) : ℤ) : ℚ) * (5 / 100) := by nlinarith
    have hpf : (0 : ℚ) ≤ 1 + ((max 0 (hp - 80) : ℤ) : ℚ) * (1 / 100) := by nlinarith
    exact mul_nonneg (mul_nonneg (mul_nonneg (by norm_num) haf) hpf) hc
  have hcov' : ¬ slotGet? slots "coverage_level" = none := by
    simpa [slotHas, Option.isSome_iff_ne_none] using hcov
  have hmiss : missing_premium_slots slots = [] := by
    simp [missing_premium_slots, PREMIUM_ORDER, slotHas, hage, hhp, hcity,
      Option.isSome_iff_ne_none, hcov']
  refine ⟨_, _, _, rfl, rfl, rfl, ?_, ?_, ?_⟩
  · unfold compare_turn
    rw [hmiss]
    simp only [slotGetD, hage, hhp, hcity, Option.getD, pyInt?]
    rfl
  · exact round2_mono (by nlinarith)
  · exact round2_mono (by nlinarith)

/-- Witness for C4 at the concrete tuple (5 years, 120 HP, Ljubljana). -/
theorem C4_witness :
    ∃ rb rs rp : PremiumResult,
      calculate_premium? 5 120 "Ljubljana" "basic" = some rb ∧
      calculate_premium? 5 120 "Ljubljana" "standard" = some rs ∧
      calculate_premium? 5 120 "Ljubljana" "premium" = some rp ∧
      compare_turn [("vehicle_age", vInt 5), ("horsepower", vInt 120),
                    ("city", vStr "Ljubljana"), ("coverage_level", vStr "basic")] =
        some (⟨"Here’s a quick comparison:\n" ++
               "- Basic (liability only): €" ++ pyStr (vRat rb.monthly_eur) ++ " per month\n" ++
               "- Standard: €" ++ pyStr (vRat rs.monthly_eur) ++ " per month\n" ++
               "- Premium (most coverage): €" ++ pyStr (vRat rp.monthly_eur) ++ " per month\n\n" ++
               "Which one do you prefer?", false⟩,
              [("vehicle_age", vInt 5), ("horsepower", vInt 120),
               ("city", vStr "Ljubljana"), ("coverage_level", vStr "basic")]) ∧
      rb.monthly_eur ≤ rs.monthly_eur ∧ rs.monthly_eur ≤ rp.monthly_eur :=
  C4_compare_coverage_ordered 5 120 "Ljubljana"
    [("vehicle_age", vInt 5), ("horsepower", vInt 120),
     ("city", vStr "Ljubljana"), ("coverage_level", vStr "basic")]
    (by decide) (by decide) (by decide) (by decide) (by decide) (by decide)

/-! ## C6: city normalization -/

theorem trimL_eq_rdrop (l : List Char) :
    trimL l = List.rdropWhile isWSC (l.dropWhile isWSC) := rfl

theorem dropWhile_trimL (l : List Char) :
    (trimL l).dropWhile isWSC = trimL l := by
  rw [trimL_eq_rdrop]
  rcases h : List.rdropWhile isWSC (l.dropWhile isWSC) with _ | ⟨c, rest⟩
  · simp
  · have hpre : List.rdropWhile isWSC (l.dropWhile isWSC) <+: l.dropWhile isWSC :=
      List.rdropWhile_prefix _ _
    rw [h] at hpre
    obtain ⟨t, ht⟩ := hpre
    have hne : l.dropWhile isWSC ≠ [] := by rw [← ht]; simp
    have hc : isWSC ((l.dropWhile isWSC).head hne) = false :=
      List.head_dropWhile_not _ _ hne
    have hhead : (l.dropWhile isWSC).head hne = c := by
      have : l.dropWhile isWSC = c :: (rest ++ t) := by rw [← ht]; simp
      simp [this]
    rw [hhead] at hc
    rw [List.dropWhile_cons, if_neg (by simp [hc])]

theorem trimL_idem (l : List Char) : trimL (trimL l) = trimL l := by
  conv_lhs => rw [trimL_eq_rdrop (trimL l), dropWhile_trimL, trimL_eq_rdrop]
  rw [List.rdropWhile_idempotent, ← trimL_eq_rdrop]

theorem trimS_idem (s : String) : trimS (trimS s) = trimS s :=
  congrArg String.mk (trimL_idem s.data)

theorem ratioLt (a b : List Char) (m T : Nat)
    (hm : matchedSize (T + 1) a b = m) (hT : a.length + b.length = T)
    (h0 : T ≠ 0) (h8 : 8 * m < 3 * T) :
    ¬ ((75 : ℚ) / 100 ≤ simRatio a b) := by
  unfold simRatio
  rw [hT, if_neg h0, hm]
  rw [not_le, show ((75 : ℚ) / 100) = 3 / 4 by norm_num,
    div_lt_div_iff (by exact_mod_cast Nat.pos_of_ne_zero h0) (by norm_num)]
  have h8' : (8 : ℚ) * (m : ℚ) < 3 * (T : ℚ) := by exact_mod_cast h8
  push_cast
  linarith

theorem ratioGe (a b : List Char) (m T : Nat)
    (hm : matchedSize (T + 1) a b = m) (hT : a.length + b.length = T)
    (h0 : T ≠ 0) (h8 : 3 * T ≤ 8 * m) :
    (75 : ℚ) / 100 ≤ simRatio a b := by
  unfold simRatio
  rw [hT, if_neg h0, hm]
  rw [show ((75 : ℚ) / 100) = 3 / 4 by norm_num,
    div_le_div_iff (by norm_num) (by exact_mod_cast Nat.pos_of_ne_zero h0)]
  have h8' : (3 : ℚ) * (T : ℚ) ≤ 8 * (m : ℚ) := by exact_mod_cast h8
  push_cast
  linarith

/-- A known city (whose lowered form fails all the Ljubljana rules and is
found in the table) is a fixed point of `normalize_city`. -/
theorem normCityFix (y cl : String)
    (hcl : trimS (lowerS (trimS y)) = cl)
    (h1 : ¬ cl = "")
    (h2 : ¬ (LJ_VARIANTS.contains cl || hasSubS "ljubl" cl) = true)
    (hr : ¬ ((75 : ℚ) / 100 ≤ simRatio cl.data "ljubljana".data))
    (hf : (KNOWN_CITIES.find? (fun p => p.1 = cl)).map (fun p => p.2) = some y) :
    normalize_city y = y := by
  unfold normalize_city
  dsimp only
  rw [hcl, if_neg h1, if_neg h2, if_neg hr]
  cases hff : KNOWN_CITIES.find? (fun p => p.1 = cl) with
  | none => rw [hff] at hf; cases hf
  | some p =>
    rw [hff] at hf
    simp only [Option.map_some', Option.some.injEq] at hf
    exact hf

/-- C6: `normalize_city` sends each curated Ljubljana misspelling, any
string containing "ljubl" (case-insensitively), and any string whose
SequenceMatcher ratio against "ljubljana" is ≥ 0.75 to exactly
"Ljubljana"; any city matching neither the Ljubljana rules nor the
known-city table is returned unchanged except for trimming; consequently
`normalize_city` is idempotent. -/
theorem C6_normalize_city :
    ((["ljublajan", "liubljana", "lubljana", "ljublijana", "ljubljkana",
       "leobliana"] : List String).all
        (fun v => normalize_city v = "Ljubljana") = true) ∧
    (∀ c : String, hasSubS "ljubl" (trimS (lowerS (trimS c))) = true →
      normalize_city c = "Ljubljana") ∧
    (∀ c : String,
      (75 : ℚ) / 100 ≤ simRatio (trimS (lowerS (trimS c))).data "ljubljana".data →
      normalize_city c = "Ljubljana") ∧
    (∀ c : String,
      ¬ trimS (lowerS (trimS c)) ∈ LJ_VARIANTS →
      hasSubS "ljubl" (trimS (lowerS (trimS c))) = false →
      ¬ ((75 : ℚ) / 100 ≤ simRatio (trimS (lowerS (trimS c))).data "ljubljana".data) →
      KNOWN_CITIES.find? (fun p => p.1 = trimS (lowerS (trimS c))) = none →
      normalize_city c = trimS c) ∧
    (∀ c : String, normalize_city (normalize_city c) = normalize_city c) := by
  have hzero : ¬ ((75 : ℚ) / 100 ≤ simRatio ("" : String).data "ljubljana".data) :=
    ratioLt _ _ 0 9 (by decide) (by decide) (by decide) (by norm_num)
  have hsub : ∀ c : String, hasSubS "ljubl" (trimS (lowerS (trimS c))) = true →
      normalize_city c = "Ljubljana" := by
    intro c h
    have hne : ¬ trimS (lowerS (trimS c)) = "" := by
      intro he
      rw [he] at h
      exact absurd h (by decide)
    unfold normalize_city
    rw [if_neg hne, if_pos (by rw [h]; simp)]
  have hratio : ∀ c : String,
      (75 : ℚ) / 100 ≤ simRatio (trimS (lowerS (trimS c))).data "ljubljana".data →
      normalize_city c = "Ljubljana" := by
    intro c h
    have hne : ¬ trimS (lowerS (trimS c)) = "" := by
      intro he
      rw [he] at h
      exact hzero h
    unfold normalize_city
    rw [if_neg hne]
    by_cases h2 : (LJ_VARIANTS.contains (trimS (lowerS (trimS c))) ||
        hasSubS "ljubl" (trimS (lowerS (trimS c)))) = true
    · rw [if_pos h2]
    · rw [if_neg h2, if_pos h]
  have hunchanged : ∀ c : String,
      ¬ trimS (lowerS (trimS c)) ∈ LJ_VARIANTS →
      hasSubS "ljubl" (trimS (lowerS (trimS c))) = false →
      ¬ ((75 : ℚ) / 100 ≤ simRatio (trimS (lowerS (trimS c))).data "ljubljana".data) →
      KNOWN_CITIES.find? (fun p => p.1 = trimS (lowerS (trimS c))) = none →
      normalize_city c = trimS c := by
    intro c h1 h2 h3 h4
    unfold normalize_city
    by_cases hne : trimS (lowerS (trimS c)) = ""
    · rw [if_pos hne]
    · rw [if_neg hne, if_neg (by simp [h1, h2]), if_neg h3, h4]
      exact trimS_idem c
  refine ⟨by decide, hsub, hratio, hunchanged, ?_⟩
  intro c
  by_cases hne : trimS (lowerS (trimS c)) = ""
  · have hval : normalize_city c = trimS c := by
      unfold normalize_city
      rw [if_pos hne]
    rw [hval]
    unfold normalize_city
    rw [trimS_idem, if_pos hne]
  · by_cases h2 : (LJ_VARIANTS.contains (trimS (lowerS (trimS c))) ||
        hasSubS "ljubl" (trimS (lowerS (trimS c)))) = true
    · have hval : normalize_city c = "Ljubljana" := by
        unfold normalize_city
        rw [if_neg hne, if_pos h2]
      rw [hval]; decide
    · by_cases h3 : (75 : ℚ) / 100 ≤ simRatio (trimS (lowerS (trimS c))).data "ljubljana".data
      · rw [hratio c h3]; decide
      · cases hf : KNOWN_CITIES.find? (fun p => p.1 = trimS (lowerS (trimS c))) with
        | some p =>
          have hval : normalize_city c = p.2 := by
            unfold normalize_city
            rw [if_neg hne, if_neg h2, if_neg h3, hf]
          have hp : p ∈ KNOWN_CITIES := List.mem_of_find?_eq_some hf
          rw [hval]
          fin_cases hp
          · exact normCityFix "Maribor" "maribor" (by decide) (by decide) (by decide)
              (ratioLt _ _ 1 16 (by decide) (by decide) (by decide) (by norm_num))
              (by decide)
          · exact normCityFix "Celje" "celje" (by decide) (by decide) (by decide)
              (ratioLt _ _ 2 14 (by decide) (by decide) (by decide) (by norm_num))
              (by decide)
          · exact normCityFix "Koper" "koper" (by decide) (by decide) (by decide)
              (ratioLt _ _ 0 14 (by decide) (by decide) (by decide) (by norm_num))
              (by decide)
        | none =>
          have hval : normalize_city c = trimS c := by
            unfold normalize_city
            rw [if_neg hne, if_neg h2, if_neg h3, hf]
            exact trimS_idem c
          rw [hval]
          unfold normalize_city
          rw [trimS_idem, if_neg hne, if_neg h2, if_neg h3, hf, trimS_idem]

/-- Witness for C6 at a concrete input: "ljubjana" is accepted purely by
the similarity-ratio rule (ratio 16/17 ≥ 0.75). -/
theorem C6_witness : normalize_city "ljubjana" = "Ljubljana" :=
  C6_normalize_city.2.2.1 "ljubjana"
    (by
      have ht : trimS (lowerS (trimS "ljubjana")) = "ljubjana" := by decide
      rw [ht]
      exact ratioGe _ _ 8 17 (by decide) (by decide) (by decide) (by norm_num))

/-! ## C10: "stop" during claim intake ends the call -/

/-- C10: "stop" belongs to both the exit-word set and the cancellation-word
set; for every session state with `in_claim_intake` true, the utterance
"stop" is handled by the exit check, which runs before the cancellation
check: the call ends with `end_call = true` (and the intake flags are
cleared) rather than merely aborting the intake and continuing as doc_qa. -/
theorem C10_stop_exits_during_intake (clk : Clock) (rag : Retrieve)
    (state : SessionState)
    (hintake : slotGet? state.slots "in_claim_intake" = some (vBool true)) :
    "stop" ∈ EXIT_WORDS ∧ "stop" ∈ CANCEL_WORDS ∧
    dialogue_manager clk rag "stop" state =
      some (⟨EXIT_RESPONSE, true⟩,
        ⟨slotPop (slotSet state.slots "in_claim_intake" (vBool false)) "claim_expected",
         state.last_intent, state.turns + 1⟩) := by
  refine ⟨by decide, by decide, ?_⟩
  unfold dialogue_manager
  rw [if_pos (by decide : contains_any (trimS (lowerS "stop")) EXIT_WORDS = true)]

/-- Witness for C10 at a concrete intake state. -/
theorem C10_witness :
    "stop" ∈ EXIT_WORDS ∧ "stop" ∈ CANCEL_WORDS ∧
    dialogue_manager clkT ragT "stop"
        ⟨[("in_claim_intake", vBool true), ("claim_expected", vStr "injuries")],
         some "report_claim", 3⟩ =
      some (⟨EXIT_RESPONSE, true⟩,
        ⟨slotPop (slotSet [("in_claim_intake", vBool true),
                           ("claim_expected", vStr "injuries")]
                   "in_claim_intake" (vBool false)) "claim_expected",
         some "report_claim", 4⟩) :=
  C10_stop_exits_during_intake clkT ragT
    ⟨[("in_claim_intake", vBool true), ("claim_expected", vStr "injuries")],
     some "report_claim", 3⟩ (by decide)

/-! ## C1: the exit check -/

/-- C1 counterexample: "extended" is not an exact (case-insensitive) match
of any exit phrase, yet the call ends on it — the exit check is substring
containment ("end" occurs inside "extended"), not exact matching. -/
theorem C1_counterexample :
    trimS (lowerS "extended") ∉ EXIT_WORDS ∧
    dialogue_manager clkT ragT "extended" ⟨[], none, 0⟩ =
      some (⟨EXIT_RESPONSE, true⟩, ⟨[("in_claim_intake", vBool false)], none, 1⟩) := by
  exact ⟨by decide, by decide⟩

/-- C1 (amended): for every session state and every utterance whose
normalized (lower-cased, trimmed) text *contains* one of the fixed exit
phrases — in particular any exact match — `dialogue_manager` returns a
`TurnResult` with `end_call = true` on that very turn, sets
`in_claim_intake` to false and removes `claim_expected` from the slots,
regardless of any in-progress claim or quote state. -/
theorem C1_amended_exit_on_containment (clk : Clock) (rag : Retrieve)
    (u : String) (state : SessionState)
    (h : contains_any (trimS (lowerS u)) EXIT_WORDS = true) :
    ∃ slots' : Slots,
      dialogue_manager clk rag u state =
        some (⟨EXIT_RESPONSE, true⟩, ⟨slots', state.last_intent, state.turns + 1⟩) ∧
      slotGet? slots' "in_claim_intake" = some (vBool false) ∧
      slotGet? slots' "claim_expected" = none := by
  refine ⟨slotPop (slotSet state.slots "in_claim_intake" (vBool false)) "claim_expected",
    ?_, ?_, ?_⟩
  · unfold dialogue_manager
    rw [if_pos h]
  · rw [slotGet?_pop_ne _ _ (by decide), slotGet?_set_self]
  · exact slotGet?_pop_self _ _

/-- Witness for C1 (amended) at a concrete exit utterance mid-intake. -/
theorem C1_witness :
    ∃ slots' : Slots,
      dialogue_manager clkT ragT "goodbye"
          ⟨[("in_claim_intake", vBool true), ("claim_expected", vStr "injuries")],
           some "report_claim", 7⟩ =
        some (⟨EXIT_RESPONSE, true⟩, ⟨slots', some "report_claim", 8⟩) ∧
      slotGet? slots' "in_claim_intake" = some (vBool false) ∧
      slotGet? slots' "claim_expected" = none :=
  C1_amended_exit_on_containment clkT ragT "goodbye"
    ⟨[("in_claim_intake", vBool true), ("claim_expected", vStr "injuries")],
     some "report_claim", 7⟩ (by decide)

/-! ## C3: claim numbers -/

theorem natDigitsAux_len : ∀ (f k n : Nat), n < 10 ^ k →
    (natDigitsAux f n).length ≤ k := by
  intro f
  induction f with
  | zero => intro k n _; simp [natDigitsAux]
  | succ f ih =>
    intro k n hn
    unfold natDigitsAux
    by_cases h0 : n = 0
    · simp [h0]
    · rw [if_neg h0]
      cases k with
      | zero =>
        exfalso
        simp only [pow_zero, Nat.lt_one_iff] at hn
        exact h0 hn
      | succ k' =>
        have hdiv : n / 10 < 10 ^ k' := by
          apply Nat.div_lt_of_lt_mul
          calc n < 10 ^ (k' + 1) := hn
            _ = 10 * 10 ^ k' := by ring
        have hih := ih k' (n / 10) hdiv
        simp only [List.length_append, List.length_singleton]
        omega

theorem natToStr_len_le (n : Nat) (h : n ≤ 99999) : (natToStr n).data.length ≤ 5 := by
  unfold natToStr
  by_cases h0 : n = 0
  · simp [h0]
  · rw [if_neg h0]
    exact natDigitsAux_len (n + 1) 5 n (by omega)

theorem pad5_len (n : Nat) (h : n ≤ 99999) : (pad5 n).data.length = 5 := by
  unfold pad5
  have hl := natToStr_len_le n h
  simp only [String.data_append, List.length_append, List.length_replicate]
  omega

theorem ctrGet_set_self (k : String) (v : Nat) :
    ∀ m : List (String × Nat), ctrGet (ctrSet m k v) k = v := by
  intro m
  unfold ctrGet ctrSet
  split
  · rename_i hfound
    induction m with
    | nil => simp at hfound
    | cons p rest ih =>
      by_cases hp : p.1 = k
      · simp [List.find?_cons, hp]
      · simp only [List.map_cons, if_neg hp]
        rw [List.find?_cons_of_neg _ (by simpa using hp)]
        rw [List.find?_cons_of_neg _ (by simpa using hp)] at hfound
        exact ih (by simpa using hfound)
  · induction m with
    | nil => simp
    | cons p rest ih =>
      rename_i hnf
      by_cases hp : p.1 = k
      · exfalso
        rw [List.find?_cons_of_pos _ (by simpa using hp)] at hnf
        simp at hnf
      · rw [List.cons_append, List.find?_cons_of_neg _ (by simpa using hp)]
        rw [List.find?_cons_of_neg _ (by simpa using hp)] at hnf
        exact ih hnf

/-- C3 counterexample: with the monthly counter already at 99999, the next
generated claim number's sequence part is "100000" — six digits, so the
number is 12 characters, not the 11 a "5-digit" sequence implies. -/
theorem C3_counterexample :
    (generate_claim_number clkT [("claim_counters", vCtr [("202610", 99999)])]).1 =
      "202610100000" ∧
    ¬ (generate_claim_number clkT
        [("claim_counters", vCtr [("202610", 99999)])]).1.data.length = 11 := by
  exact ⟨by decide, by decide⟩

/-- C3 (amended): every generated claim number is `YYYYMM` followed by the
decimal sequence number zero-padded to a *minimum* of five digits —
exactly five while the monthly count stays ≤ 99999; the month-scoped
counter starts at 1 (a missing counter reads as 0) and increments by
exactly 1 per completed claim, so of two claims completed in the same
calendar month within one session, the later one's sequence number is
strictly greater. -/
theorem C3_amended_claim_numbers (clk : Clock) (slots : Slots) :
    (generate_claim_number clk slots).1 =
      clk.yyyymm ++ pad5 (ctrGet (countersOf slots) clk.yyyymm + 1) ∧
    ctrGet (countersOf (generate_claim_number clk slots).2) clk.yyyymm =
      ctrGet (countersOf slots) clk.yyyymm + 1 ∧
    (generate_claim_number clk (generate_claim_number clk slots).2).1 =
      clk.yyyymm ++ pad5 (ctrGet (countersOf slots) clk.yyyymm + 2) ∧
    ctrGet (countersOf slots) clk.yyyymm + 1 <
      ctrGet (countersOf slots) clk.yyyymm + 2 ∧
    (ctrGet (countersOf slots) clk.yyyymm + 1 ≤ 99999 →
      (pad5 (ctrGet (countersOf slots) clk.yyyymm + 1)).data.length = 5) := by
  have hc2 : countersOf (generate_claim_number clk slots).2 =
      ctrSet (countersOf slots) clk.yyyymm (ctrGet (countersOf slots) clk.yyyymm + 1) := by
    unfold generate_claim_number countersOf
    rw [slotGet?_set_self]
  have gen1 : ∀ x : Slots, (generate_claim_number clk x).1 =
      clk.yyyymm ++ pad5 (ctrGet (countersOf x) clk.yyyymm + 1) := fun _ => rfl
  refine ⟨rfl, ?_, ?_, by omega, fun h => pad5_len _ h⟩
  · rw [hc2, ctrGet_set_self]
  · rw [gen1, hc2, ctrGet_set_self]

/-- Witness for C3 (amended) at a fresh session (counter starts at 1, and
the padded sequence part has exactly five digits). -/
theorem C3_witness :
    (generate_claim_number clkT []).1 = "202610" ++ pad5 1 ∧
    (pad5 1).data.length = 5 :=
  ⟨(C3_amended_claim_numbers clkT []).1,
   (C3_amended_claim_numbers clkT []).2.2.2.2 (by decide)⟩

/-! ## C7: spoken-digit recovery and policy-number acceptance -/

theorem wbShrink_len (minLen : Nat) :
    ∀ (rev after g : List Char), wbShrink minLen rev after = some g →
      minLen ≤ g.length := by
  intro rev
  induction rev with
  | nil => intro after g h; simp [wbShrink] at h
  | cons c rest ih =>
    intro after g h
    unfold wbShrink at h
    split at h
    · rename_i hcond
      injection h with h
      rw [← h]
      simpa using hcond.1
    · exact ih _ g h

theorem fallbackTryHere_len (l g : List Char) (h : fallbackTryHere l = some g) :
    5 ≤ g.length := by
  cases l with
  | nil => simp [fallbackTryHere] at h
  | cons c cs =>
    simp only [fallbackTryHere] at h
    by_cases halnum : isAlnumC c = true
    · rw [if_pos halnum] at h
      cases hwb : wbShrink 4 (cs.takeWhile refClass).reverse
          (cs.drop (cs.takeWhile refClass).length) with
      | none => rw [hwb] at h; cases h
      | some g' =>
        rw [hwb] at h
        injection h with h
        have := wbShrink_len 4 _ _ _ hwb
        rw [← h]
        simp only [List.length_cons]
        omega
    · rw [if_neg halnum] at h; cases h

theorem fallbackSearch_len :
    ∀ (prev : Option Char) (l g : List Char),
      fallbackSearchFrom prev l = some g → 5 ≤ g.length := by
  intro prev l
  induction l generalizing prev with
  | nil => intro g h; simp [fallbackSearchFrom] at h
  | cons c cs ih =>
    intro g h
    unfold fallbackSearchFrom at h
    split at h
    · rename_i g' hg'
      injection h with h
      subst h
      by_cases hb : nonWordOpt prev = true
      · rw [if_pos hb] at hg'
        exact fallbackTryHere_len _ _ hg'
      · rw [if_neg hb] at hg'; cases hg'
    · exact ih _ _ h

theorem policy_fallback_len (t : String) (g : String)
    (h : policy_fallback? t = some g) : 5 ≤ g.data.length := by
  unfold policy_fallback? at h
  cases hs : fallbackSearchFrom none t.data with
  | none => rw [hs] at h; cases h
  | some g' =>
    rw [hs] at h
    simp only [Option.map_some', Option.some.injEq] at h
    rw [← h]
    exact fallbackSearch_len none t.data g' hs

/-- C7 counterexample: during intake of the policy number, the utterance
"ABCDE" contains no digits at all, yet it is accepted into the
`insurance_number` slot (by the alphanumeric fallback regex), so a policy
number can be accepted although its digit string has length 0 < 6. -/
theorem C7_counterexample :
    claim_apply_expected_answer clkT "ABCDE"
        [("claim_expected", vStr "insurance_number")] =
      [("insurance_number", vStr "ABCDE")] ∧
    (("ABCDE" : String).data.filter isDigitC).length < 6 := by
  exact ⟨by decide, by decide⟩

/-- C7 (amended): the spoken-digit recovery returns the spoken-word
reconstruction (with "double"/"triple" multipliers and the homophones
"for"→4, "ate"→8 applied) whenever it yields at least as many digits as
the raw digit characters of the utterance, and the raw digit characters
otherwise.  A *numeric* policy number is accepted into `insurance_number`
only when the recovered digit string has length ≥ 6 (and is all digits);
when that extraction fails, a fallback accepts any word-bounded
alphanumeric-and-hyphen token of length ≥ 5 into `insurance_number` —
this fallback is what admits non-digit policy identifiers. -/
theorem C7_amended_policy_number :
    (∀ text : String,
      spoken_digits_to_string text =
        (if (rawDigitsOf text).length ≤ (spokenOf text).length then
          (⟨spokenOf text⟩ : String)
        else ⟨rawDigitsOf text⟩)) ∧
    (∀ text : String, extract_policy_number text ≠ "" →
      6 ≤ (extract_policy_number text).data.length ∧
      (extract_policy_number text).data.all isDigitC = true) ∧
    (∀ (clk : Clock) (text : String) (slots : Slots),
      slotGet? slots "claim_expected" = some (vStr "insurance_number") →
      extract_policy_number (trimS text) ≠ "" →
      slotGet? (claim_apply_expected_answer clk text slots) "insurance_number" =
        some (vStr (extract_policy_number (trimS text)))) ∧
    (∀ (clk : Clock) (text : String) (slots : Slots) (g : String),
      slotGet? slots "claim_expected" = some (vStr "insurance_number") →
      extract_policy_number (trimS text) = "" →
      policy_fallback? (trimS text) = some g →
      slotGet? (claim_apply_expected_answer clk text slots) "insurance_number" =
        some (vStr g) ∧ 5 ≤ g.data.length) := by
  refine ⟨fun text => rfl, ?_, ?_, ?_⟩
  · intro text h
    unfold extract_policy_number at h ⊢
    by_cases h6 : 6 ≤ ((spoken_digits_to_string text).data.filter isDigitC).length
    · rw [if_pos h6]
      refine ⟨by simpa using h6, ?_⟩
      simp only [List.all_eq_true]
      intro c hc
      exact (List.mem_filter.mp hc).2
    · rw [if_neg h6] at h
      exact absurd rfl h
  · intro clk text slots hget hpn
    unfold claim_apply_expected_answer
    rw [hget]
    dsimp only
    rw [if_neg (by decide), if_neg (by decide), if_neg (by decide),
      if_neg (by decide), if_neg (by decide),
      if_pos (by left; rfl), if_pos hpn]
    rw [slotGet?_pop_ne _ _ (by decide), slotGet?_set_self]
  · intro clk text slots g hget hpn hfb
    refine ⟨?_, policy_fallback_len _ _ hfb⟩
    unfold claim_apply_expected_answer
    rw [hget]
    dsimp only
    rw [if_neg (by decide), if_neg (by decide), if_neg (by decide),
      if_neg (by decide), if_neg (by decide),
      if_pos (by left; rfl), if_neg (by simpa using hpn), hfb]
    rw [slotGet?_pop_ne _ _ (by decide), slotGet?_set_self]

/-- Witness for C7 (amended): spoken digits "one two three four five six"
are accepted as a six-digit policy number. -/
theorem C7_witness :
    slotGet? (claim_apply_expected_answer clkT "one two three four five six"
        [("claim_expected", vStr "insurance_number")]) "insurance_number" =
      some (vStr (extract_policy_number (trimS "one two three four five six"))) :=
  C7_amended_policy_number.2.2.1 clkT "one two three four five six"
    [("claim_expected", vStr "insurance_number")] (by decide) (by decide)

/-! ## C2: claim questions follow the fixed order -/

theorem filter_head_mem {l : List String} {p : String → Bool} {F : String}
    {rest : List String} (h : l.filter p = F :: rest) : F ∈ l :=
  List.mem_of_mem_filter (h ▸ List.mem_cons_self F rest)

theorem filter_head_pred {l : List String} {p : String → Bool} {F : String}
    {rest : List String} (h : l.filter p = F :: rest) : p F = true :=
  List.of_mem_filter (h ▸ List.mem_cons_self F rest)

theorem filter_head_min :
    ∀ (l : List String) (p : String → Bool) (F : String) (rest : List String),
      l.Nodup → l.filter p = F :: rest →
      ∀ j ∈ l, l.indexOf j < l.indexOf F → p j = false := by
  intro l
  induction l with
  | nil => intro p F rest _ h; simp at h
  | cons a t ih =>
    intro p F rest hnd h j hj hidx
    by_cases pa : p a = true
    · rw [List.filter_cons_of_pos pa] at h
      injection h with h1 h2
      subst h1
      rw [List.indexOf_cons_self] at hidx
      omega
    · rw [List.filter_cons_of_neg (by simpa using pa)] at h
      have hFt : F ∈ t := filter_head_mem h
      have hFa : F ≠ a := fun he => (List.nodup_cons.mp hnd).1 (he ▸ hFt)
      rcases List.mem_cons.mp hj with rfl | hjt
      · simpa using pa
      · have hja : j ≠ a := fun he => (List.nodup_cons.mp hnd).1 (he ▸ hjt)
        rw [List.indexOf_cons_ne _ (Ne.symm hja), List.indexOf_cons_ne _ (Ne.symm hFa)] at hidx
        exact ih p F rest (List.nodup_cons.mp hnd).2 h j hjt (by omega)

/-- C2: on a claim-intake turn with at least one required field still
missing after the turn's free-text updates, the question asked is the
canned question for the *first* missing field in the fixed order
[insurance_number, injuries, accident_city, accident_date,
accident_description, police_report, vehicle_drivable,
third_party_involved]; that field is stored as `claim_expected`; the field
is not present in the slots (so a field already present is never asked),
and every field ordered before it is present. -/
theorem C2_claim_intake_order (clk : Clock) (user_text : String)
    (slots s2 : Slots) (F : String) (rest : List String)
    (hs2 : s2 = claim_apply_expected_answer clk user_text
      (claim_update_from_text clk user_text
        (slotSet slots "in_claim_intake" (vBool true))))
    (hmiss : claim_missing_slots s2 = F :: rest) :
    claim_intake_turn clk user_text slots =
      (⟨ask_claim_question F, false⟩, slotSet s2 "claim_expected" (vStr F)) ∧
    F ∈ CLAIM_ORDER ∧
    slotHas s2 F = false ∧
    (∀ j ∈ CLAIM_ORDER, CLAIM_ORDER.indexOf j < CLAIM_ORDER.indexOf F →
      slotHas s2 j = true) := by
  subst hs2
  refine ⟨?_, filter_head_mem hmiss, ?_, ?_⟩
  · unfold claim_intake_turn
    dsimp only
    rw [show claim_missing_slots _ = F :: rest from hmiss]
  · have hp := filter_head_pred hmiss
    simpa using hp
  · intro j hj hidx
    have hp := filter_head_min CLAIM_ORDER _ F rest (by decide) hmiss j hj hidx
    simpa using hp

/-- Witness for C2: on an empty session with an uninformative first
utterance, the first question asked is the policy-number question. -/
theorem C2_witness :
    claim_intake_turn clkT "blah" [] =
      (⟨ask_claim_question "insurance_number", false⟩,
       slotSet (claim_apply_expected_answer clkT "blah"
          (claim_update_from_text clkT "blah"
            (slotSet [] "in_claim_intake" (vBool true))))
         "claim_expected" (vStr "insurance_number")) ∧
    "insurance_number" ∈ CLAIM_ORDER ∧
    slotHas (claim_apply_expected_answer clkT "blah"
      (claim_update_from_text clkT "blah"
        (slotSet [] "in_claim_intake" (vBool true)))) "insurance_number" = false ∧
    (∀ j ∈ CLAIM_ORDER,
      CLAIM_ORDER.indexOf j < CLAIM_ORDER.indexOf "insurance_number" →
      slotHas (claim_apply_expected_answer clkT "blah"
        (claim_update_from_text clkT "blah"
          (slotSet [] "in_claim_intake" (vBool true)))) j = true) :=
  C2_claim_intake_order clkT "blah" [] _ "insurance_number"
    ["injuries", "accident_city", "accident_date", "accident_description",
     "police_report", "vehicle_drivable", "third_party_involved"]
    rfl (by decide)

/-! ## C8: the `force_intent` override -/

/-- The intent-resolution pipeline unconditionally pops `force_intent`. -/
theorem resolve_intent_force (u t : String) (li : Option String) (s : Slots) :
    slotGet? (resolve_intent u t li s).2 "force_intent" = none := by
  unfold resolve_intent
  dsimp only
  repeat' split
  all_goals
    first
    | exact slotGet?_pop_self _ _
    | (rw [slotGet?_pop_ne _ _ (by decide), slotGet?_set_ne _ _ (by decide)]
       exact slotGet?_pop_self _ _)

/-- The claim-intake branch never touches `force_intent`. -/
theorem claim_intake_turn_force (clk : Clock) (u : String) (s : Slots) :
    slotGet? (claim_intake_turn clk u s).2 "force_intent" =
      slotGet? s "force_intent" := by
  unfold claim_intake_turn
  dsimp only
  split
  · rw [slotGet?_set_ne _ _ (by decide),
      claim_apply_get_ne _ _ _ _ (by decide), claim_update_get_ne _ _ _ _ (by decide),
      slotGet?_set_ne _ _ (by decide)]
  · rw [slotGet?_pop_ne _ _ (by decide), slotGet?_set_ne _ _ (by decide),
      slotGet?_set_ne _ _ (by decide)]
    show slotGet? (slotSet _ "claim_counters" _) "force_intent" = _
    rw [slotGet?_set_ne _ _ (by decide),
      claim_apply_get_ne _ _ _ _ (by decide), claim_update_get_ne _ _ _ _ (by decide),
      slotGet?_set_ne _ _ (by decide)]

/-- The premium branch never touches `force_intent`. -/
theorem premium_turn_force (t : String) (s : Slots) (r : TurnResult × Slots)
    (h : premium_turn t s = some r) :
    slotGet? r.2 "force_intent" = slotGet? s "force_intent" := by
  have e1 : ∀ (v : Val) (s : Slots),
      slotGet? (slotSet s "coverage_level" v) "force_intent" =
        slotGet? s "force_intent" := fun v s => slotGet?_set_ne _ _ (by decide) v s
  have e2 : ∀ (v : Val) (s : Slots),
      slotGet? (slotSet s "horsepower" v) "force_intent" =
        slotGet? s "force_intent" := fun v s => slotGet?_set_ne _ _ (by decide) v s
  have e3 : ∀ (v : Val) (s : Slots),
      slotGet? (slotSet s "engine_size_l" v) "force_intent" =
        slotGet? s "force_intent" := fun v s => slotGet?_set_ne _ _ (by decide) v s
  unfold premium_turn at h
  dsimp only at h
  repeat' split at h
  all_goals first
    | exact Option.noConfusion h
    | (injection h with h
       rw [← h]
       repeat' split
       all_goals simp only [e1, e2, e3])

/-- The comparison branch returns the slots unchanged. -/
theorem compare_turn_slots (s : Slots) (r : TurnResult × Slots)
    (h : compare_turn s = some r) : r.2 = s := by
  unfold compare_turn at h
  dsimp only at h
  repeat' split at h
  all_goals first
    | exact Option.noConfusion h
    | (injection h with h
       rw [← h])

/-- The doc-QA responder leaves `force_intent` absent or sets it to
`"premium_estimate"`. -/
theorem qa_force (u : String) (docs : List DocChunk) (s : Slots)
    (r : String × Slots) (h : qa_answer_or_followup u docs s = some r)
    (h0 : slotGet? s "force_intent" = none) :
    slotGet? r.2 "force_intent" = none ∨
    slotGet? r.2 "force_intent" = some (vStr "premium_estimate") := by
  have e1 : ∀ (v : Val) (s : Slots),
      slotGet? (slotSet s "qa_turns" v) "force_intent" =
        slotGet? s "force_intent" := fun v s => slotGet?_set_ne _ _ (by decide) v s
  have e2 : ∀ (v : Val) (s : Slots),
      slotGet? (slotSet s "qa_frustration" v) "force_intent" =
        slotGet? s "force_intent" := fun v s => slotGet?_set_ne _ _ (by decide) v s
  unfold qa_answer_or_followup at h
  dsimp only at h
  split at h
  · exact Option.noConfusion h
  · split at h
    · exact Option.noConfusion h
    · by_cases h1 : looks_like_insurance_request (trimS (lowerS u)) = true
      · rw [if_pos h1] at h
        injection h with h
        rw [← h]
        right
        dsimp only
        rw [slotGet?_set_self]
      · rw [if_neg h1] at h
        by_cases h2 : looks_like_claim_info_only (trimS (lowerS u)) = true
        · rw [if_pos h2] at h
          injection h with h
          rw [← h]
          left
          dsimp only
          rw [e2, e1]
          exact h0
        · rw [if_neg h2] at h
          by_cases h3 : looks_like_pricing (trimS (lowerS u)) = true
          · rw [if_pos h3] at h
            repeat' split at h
            all_goals
              injection h with h
              rw [← h]
              right
              dsimp only
              rw [slotGet?_set_self]
          · rw [if_neg h3] at h
            repeat' split at h
            all_goals first
              | exact Option.noConfusion h
              | (injection h with h
                 rw [← h]
                 left
                 dsimp only
                 rw [e2, e1]
                 exact h0)

/-- The slots handed to every dispatch branch (after the optional
`qa_turns` reset at line 583) have no `force_intent`. -/
theorem dispatch_slots_force (u t0 : String) (li : Option String) (s : Slots)
    (c : Prop) [inst : Decidable c] :
    slotGet? (if c then slotSet (resolve_intent u t0 li s).2 "qa_turns" (vInt 0)
              else (resolve_intent u t0 li s).2) "force_intent" = none := by
  split
  · rw [slotGet?_set_ne _ _ (by decide)]
    exact resolve_intent_force _ _ _ _
  · exact resolve_intent_force _ _ _ _

/-- C8 counterexample: the doc-QA pricing shortcut (dialogue.py line 468)
stores `force_intent = "premium_estimate"` and that slot is still present
in the session state at the end of the turn — it is only consumed (popped)
at the start of the NEXT turn (line 541). -/
theorem C8_counterexample :
    (dialogue_manager clkT ragT "prcing" ⟨[], none, 0⟩).map
        (fun p => slotGet? p.2.slots "force_intent") =
      some (some (vStr "premium_estimate")) := by decide

/-- C8 (amended): `force_intent` is an inductive invariant of
`dialogue_manager`, but the consumption happens one turn late: if at the
start of a turn `force_intent` is absent or `"premium_estimate"`, then at
the end of the turn it is again absent or `"premium_estimate"` (the only
value any branch ever stores); it is popped at the start of the next turn
by the intent-resolution step (dialogue.py line 541), not within the turn
that set it. -/
theorem C8_amended_force_intent (clk : Clock) (rag : Retrieve) (u : String)
    (state : SessionState) (r : TurnResult × SessionState)
    (h0 : slotGet? state.slots "force_intent" = none ∨
          slotGet? state.slots "force_intent" = some (vStr "premium_estimate"))
    (h : dialogue_manager clk rag u state = some r) :
    slotGet? r.2.slots "force_intent" = none ∨
    slotGet? r.2.slots "force_intent" = some (vStr "premium_estimate") := by
  have hset : ∀ (s : Slots),
      slotGet? (slotSet s "qa_turns" (vInt 0)) "force_intent" =
        slotGet? s "force_intent" := fun s => slotGet?_set_ne _ _ (by decide) _ s
  unfold dialogue_manager at h
  dsimp only at h
  split at h
  · -- global exit branch: the input value survives unchanged
    injection h with h
    rw [← h]
    dsimp only
    rw [slotGet?_pop_ne _ _ (by decide), slotGet?_set_ne _ _ (by decide)]
    exact h0
  · split at h
    · -- transfer to a human
      injection h with h
      rw [← h]
      dsimp only
      left
      exact dispatch_slots_force _ _ _ _ _
    · split at h
      · -- claim-intake branch
        injection h with h
        rw [← h]
        dsimp only
        left
        rw [claim_intake_turn_force]
        exact dispatch_slots_force _ _ _ _ _
      · split at h
        · -- premium branch
          repeat' split at h
          all_goals first
            | exact Option.noConfusion h
            | (rename_i rr heq
               injection h with h
               rw [← h]
               dsimp only
               left
               rw [premium_turn_force _ _ _ heq]
               first
               | (exact dispatch_slots_force _ _ _ _ _)
               | (rw [hset]; exact resolve_intent_force _ _ _ _)
               | (exact resolve_intent_force _ _ _ _))
        · -- remaining dispatch: dead joins, comparison, doc-QA
          repeat' split at h
          all_goals first
            | exact Option.noConfusion h
            | (injection h with h
               rw [← h]
               dsimp only
               left
               first
               | (exact dispatch_slots_force _ _ _ _ _)
               | (rw [hset]; exact resolve_intent_force _ _ _ _)
               | (exact resolve_intent_force _ _ _ _))
            | (rename_i rr heq
               injection h with h
               rw [← h]
               dsimp only
               left
               rw [compare_turn_slots _ _ heq]
               first
               | (exact dispatch_slots_force _ _ _ _ _)
               | (rw [hset]; exact resolve_intent_force _ _ _ _)
               | (exact resolve_intent_force _ _ _ _))
            | (rename_i rr heq
               rcases qa_force _ _ _ _ heq (by
                 first
                 | (exact dispatch_slots_force _ _ _ _ _)
                 | (rw [hset]; exact resolve_intent_force _ _ _ _)
                 | (exact resolve_intent_force _ _ _ _)) with h1 | h1
               · injection h with h
                 rw [← h]
                 dsimp only
                 left
                 exact h1
               · injection h with h
                 rw [← h]
                 dsimp only
                 right
                 exact h1)

/-- Witness for C8 at a concrete turn: an uninformative utterance on an
empty session keeps `force_intent` absent. -/
theorem C8_witness :
    slotGet? ([("qa_turns", vInt 1), ("qa_frustration", vInt 0)] : Slots)
        "force_intent" = none ∨
    slotGet? ([("qa_turns", vInt 1), ("qa_frustration", vInt 0)] : Slots)
        "force_intent" = some (vStr "premium_estimate") :=
  C8_amended_force_intent clkT ragT "hello" ⟨[], none, 0⟩
    (⟨HUMAN_FALLBACK, false⟩,
     ⟨[("qa_turns", vInt 1), ("qa_frustration", vInt 0)], some "doc_qa", 1⟩)
    (Or.inl rfl) (by decide)

/-! ## C9: unparseable answers during claim intake -/

/-- With no recognizable date in the text, `_claim_update_from_text` leaves
`accident_date` untouched. -/
theorem claim_update_date_none (clk : Clock) (u : String) (s : Slots)
    (hd : parse_date clk u = none) :
    slotGet? (claim_update_from_text clk u s) "accident_date" =
      slotGet? s "accident_date" := by
  have hnone : ∀ (s : Slots) (k : String), setIfAbsent s k none = s := fun _ _ => rfl
  unfold claim_update_from_text
  rw [setOpt_get_ne _ _ (by decide), setIfAbsent_get_ne _ _ (by decide), hd,
    Option.map_none', hnone, setIfAbsent_get_ne _ _ (by decide),
    setIfAbsent_get_ne _ _ (by decide)]

/-- During claim intake, with no cancellation word and an utterance that
does not look like pure claim information, the resolved intent is always
`report_claim` at confidence 0.95 and the slots are only stripped of
`force_intent` (lines 546-577). -/
theorem resolve_intent_intake (u t : String) (li : Option String) (s : Slots)
    (h1 : slotTruthy s "in_claim_intake" = true)
    (hnc : contains_any t CANCEL_WORDS = false)
    (hnl : looks_like_claim_info_only t = false) :
    resolve_intent u t li s =
      (⟨"report_claim", 95 / 100⟩, slotPop s "force_intent") := by
  have h1p : slotTruthy (slotPop s "force_intent") "in_claim_intake" = true := by
    unfold slotTruthy
    rw [slotGet?_pop_ne _ _ (by decide)]
    unfold slotTruthy at h1
    exact h1
  unfold resolve_intent
  dsimp only
  rw [if_pos h1p, if_neg (show ¬ contains_any t CANCEL_WORDS = true by simp [hnc])]
  simp [hnl]

/-- If every claim field strictly before `F` in the canonical order is
present and `F` is absent, then `F` heads the missing-field list. -/
theorem claim_missing_head (s : Slots) (F : String) (hmem : F ∈ CLAIM_ORDER)
    (habs : slotHas s F = false)
    (hbef : ∀ j ∈ CLAIM_ORDER, CLAIM_ORDER.indexOf j < CLAIM_ORDER.indexOf F →
      slotHas s j = true) :
    claim_missing_slots s = F :: (claim_missing_slots s).tail := by
  fin_cases hmem
  · simp [claim_missing_slots, CLAIM_ORDER, habs]
  · simp [claim_missing_slots, CLAIM_ORDER, habs,
      hbef "insurance_number" (by decide) (by decide)]
  · simp [claim_missing_slots, CLAIM_ORDER, habs,
      hbef "insurance_number" (by decide) (by decide),
      hbef "injuries" (by decide) (by decide)]
  · simp [claim_missing_slots, CLAIM_ORDER, habs,
      hbef "insurance_number" (by decide) (by decide),
      hbef "injuries" (by decide) (by decide),
      hbef "accident_city" (by decide) (by decide)]
  · simp [claim_missing_slots, CLAIM_ORDER, habs,
      hbef "insurance_number" (by decide) (by decide),
      hbef "injuries" (by decide) (by decide),
      hbef "accident_city" (by decide) (by decide),
      hbef "accident_date" (by decide) (by decide)]
  · simp [claim_missing_slots, CLAIM_ORDER, habs,
      hbef "insurance_number" (by decide) (by decide),
      hbef "injuries" (by decide) (by decide),
      hbef "accident_city" (by decide) (by decide),
      hbef "accident_date" (by decide) (by decide),
      hbef "accident_description" (by decide) (by decide)]
  · simp [claim_missing_slots, CLAIM_ORDER, habs,
      hbef "insurance_number" (by decide) (by decide),
      hbef "injuries" (by decide) (by decide),
      hbef "accident_city" (by decide) (by decide),
      hbef "accident_date" (by decide) (by decide),
      hbef "accident_description" (by decide) (by decide),
      hbef "police_report" (by decide) (by decide)]
  · simp [claim_missing_slots, CLAIM_ORDER, habs,
      hbef "insurance_number" (by decide) (by decide),
      hbef "injuries" (by decide) (by decide),
      hbef "accident_city" (by decide) (by decide),
      hbef "accident_date" (by decide) (by decide),
      hbef "accident_description" (by decide) (by decide),
      hbef "police_report" (by decide) (by decide),
      hbef "vehicle_drivable" (by decide) (by decide)]

/-- Inside the claim-intake branch, an unparseable answer to the expected
boolean or date question changes no claim field: the same question is
asked again and `claim_expected` is re-stored unchanged. -/
theorem claim_intake_reask (clk : Clock) (u : String) (s : Slots) (F : String)
    (hexp : slotGet? s "claim_expected" = some (vStr F))
    (hun : (F ∈ (["injuries", "vehicle_drivable", "third_party_involved",
                  "police_report"] : List String) ∧ parse_yes_no u = none) ∨
           (F = "accident_date" ∧ parse_date clk u = none))
    (habs : slotHas s F = false)
    (hbef : ∀ j ∈ CLAIM_ORDER, CLAIM_ORDER.indexOf j < CLAIM_ORDER.indexOf F →
      slotHas s j = true) :
    (claim_intake_turn clk u s).1.response_text = ask_claim_question F ∧
    (claim_intake_turn clk u s).1.end_call = false ∧
    slotGet? (claim_intake_turn clk u s).2 "claim_expected" = some (vStr F) ∧
    slotHas (claim_intake_turn clk u s).2 F = false := by
  unfold claim_intake_turn
  dsimp only
  rcases hun with ⟨hm, hyn⟩ | ⟨rfl, hd⟩
  · have hFne : F ∉ (["accident_city", "accident_area", "accident_date",
        "accident_description", "police_report_ref"] : List String) := by
      fin_cases hm <;> decide
    have hFint : F ≠ "in_claim_intake" := by fin_cases hm <;> decide
    have hFmem : F ∈ CLAIM_ORDER := by fin_cases hm <;> decide
    have hFce : F ≠ "claim_expected" := by fin_cases hm <;> decide
    generalize hg : claim_update_from_text clk u
      (slotSet s "in_claim_intake" (vBool true)) = s2
    have hexp2 : slotGet? s2 "claim_expected" = some (vStr F) := by
      rw [← hg, claim_update_get_ne _ _ _ _ (by decide),
        slotGet?_set_ne _ _ (by decide)]
      exact hexp
    have habs2 : slotHas s2 F = false := by
      unfold slotHas
      rw [← hg, claim_update_get_ne _ _ _ _ hFne, slotGet?_set_ne _ _ hFint]
      unfold slotHas at habs
      exact habs
    have hbef2 : ∀ j ∈ CLAIM_ORDER,
        CLAIM_ORDER.indexOf j < CLAIM_ORDER.indexOf F → slotHas s2 j = true := by
      intro j hj hidx
      rw [← hg]
      exact claim_update_has_mono _ _ _ _
        (slotHas_set_mono _ _ _ _ (hbef j hj hidx))
    have happ : claim_apply_expected_answer clk u s2 = s2 :=
      claim_apply_noop_bool clk u s2 F hexp2 hm hyn
    have hmiss := claim_missing_head s2 F hFmem habs2 hbef2
    rw [happ, hmiss]
    dsimp only
    refine ⟨rfl, rfl, ?_, ?_⟩
    · exact slotGet?_set_self _ _ _
    · rw [slotHas_set_ne _ _ hFce]
      exact habs2
  · generalize hg : claim_update_from_text clk u
      (slotSet s "in_claim_intake" (vBool true)) = s2
    have hexp2 : slotGet? s2 "claim_expected" = some (vStr "accident_date") := by
      rw [← hg, claim_update_get_ne _ _ _ _ (by decide),
        slotGet?_set_ne _ _ (by decide)]
      exact hexp
    have habs2 : slotHas s2 "accident_date" = false := by
      unfold slotHas
      rw [← hg, claim_update_date_none clk u _ hd, slotGet?_set_ne _ _ (by decide)]
      unfold slotHas at habs
      exact habs
    have hbef2 : ∀ j ∈ CLAIM_ORDER,
        CLAIM_ORDER.indexOf j < CLAIM_ORDER.indexOf "accident_date" →
        slotHas s2 j = true := by
      intro j hj hidx
      rw [← hg]
      exact claim_update_has_mono _ _ _ _
        (slotHas_set_mono _ _ _ _ (hbef j hj hidx))
    have happ : claim_apply_expected_answer clk u s2 = s2 :=
      claim_apply_noop_date clk u s2 hexp2 hd
    have hmiss := claim_missing_head s2 "accident_date" (by decide) habs2 hbef2
    rw [happ, hmiss]
    dsimp only
    refine ⟨rfl, rfl, ?_, ?_⟩
    · exact slotGet?_set_self _ _ _
    · rw [slotHas_set_ne _ _ (by decide)]
      exact habs2

/-- C9 counterexample: during claim intake with an unparseable yes/no
answer expected for `injuries`, the utterance "call me back please" is
diverted by the human-handoff check (dialogue.py line 586): the turn
transfers and ends the call instead of re-asking the injuries question. -/
theorem C9_counterexample :
    (dialogue_manager clkT ragT "call me back please"
        ⟨[("in_claim_intake", vBool true), ("claim_expected", vStr "injuries"),
          ("insurance_number", vStr "123456")], some "report_claim", 0⟩).map
        (fun p => (p.1.response_text, p.1.end_call)) =
      some (TRANSFER_RESPONSE, true) ∧
    parse_yes_no "call me back please" = none ∧
    TRANSFER_RESPONSE ≠ ask_claim_question "injuries" := by
  refine ⟨?_, ?_, ?_⟩ <;> decide

/-- C9 (amended): for every claim-intake turn expecting field `F` (a
yes/no field or the accident date) whose utterance parses to no answer
for `F`, PROVIDED the utterance does not trigger a higher-priority global
check (exit words, the human-handoff phrases, cancellation words, or the
claim-info-only reroute to doc-QA), the turn re-asks the canned question
for `F`, keeps `claim_expected = F`, leaves slot `F` absent, does not end
the call, and no failure occurs (the turn returns `some`). -/
theorem C9_amended_reask (clk : Clock) (rag : Retrieve) (u : String)
    (state : SessionState) (F : String)
    (hx : contains_any (trimS (lowerS u)) EXIT_WORDS = false)
    (hh : contains_any (trimS (lowerS u))
        ["human", "human agent", "call me back", "call back"] = false)
    (hnc : contains_any (trimS (lowerS u)) CANCEL_WORDS = false)
    (hnl : looks_like_claim_info_only (trimS (lowerS u)) = false)
    (hint : slotTruthy state.slots "in_claim_intake" = true)
    (hexp : slotGet? state.slots "claim_expected" = some (vStr F))
    (hun : (F ∈ (["injuries", "vehicle_drivable", "third_party_involved",
                  "police_report"] : List String) ∧ parse_yes_no u = none) ∨
           (F = "accident_date" ∧ parse_date clk u = none))
    (habs : slotHas state.slots F = false)
    (hbef : ∀ j ∈ CLAIM_ORDER, CLAIM_ORDER.indexOf j < CLAIM_ORDER.indexOf F →
      slotHas state.slots j = true) :
    (dialogue_manager clk rag u state).map
        (fun p => (p.1.response_text, p.1.end_call,
                   slotGet? p.2.slots "claim_expected", slotHas p.2.slots F)) =
      some (ask_claim_question F, false, some (vStr F), false) := by
  have hFent : F ∉ (["coverage_level", "horsepower", "engine_size_l", "city",
      "vehicle_year", "vehicle_age"] : List String) := by
    rcases hun with ⟨hm, h2⟩ | ⟨rfl, h2⟩
    · fin_cases hm <;> decide
    · decide
  have hFforce : F ≠ "force_intent" := by
    rcases hun with ⟨hm, h2⟩ | ⟨rfl, h2⟩
    · fin_cases hm <;> decide
    · decide
  have hFqa : F ≠ "qa_turns" := by
    rcases hun with ⟨hm, h2⟩ | ⟨rfl, h2⟩
    · fin_cases hm <;> decide
    · decide
  have hint1 : slotTruthy (entity_merge clk u (trimS (lowerS u))
      state.last_intent state.slots) "in_claim_intake" = true := by
    unfold slotTruthy
    rw [entity_merge_get_ne _ _ _ _ _ _ (by decide)]
    unfold slotTruthy at hint
    exact hint
  have hexp2 : slotGet? (slotSet (slotPop (entity_merge clk u (trimS (lowerS u))
      state.last_intent state.slots) "force_intent") "qa_turns" (vInt 0))
      "claim_expected" = some (vStr F) := by
    rw [slotGet?_set_ne _ _ (by decide), slotGet?_pop_ne _ _ (by decide),
      entity_merge_get_ne _ _ _ _ _ _ (by decide)]
    exact hexp
  have habs2 : slotHas (slotSet (slotPop (entity_merge clk u (trimS (lowerS u))
      state.last_intent state.slots) "force_intent") "qa_turns" (vInt 0))
      F = false := by
    unfold slotHas
    rw [slotGet?_set_ne _ _ hFqa, slotGet?_pop_ne _ _ hFforce,
      entity_merge_get_ne _ _ _ _ _ _ hFent]
    unfold slotHas at habs
    exact habs
  have hbef2 : ∀ j ∈ CLAIM_ORDER,
      CLAIM_ORDER.indexOf j < CLAIM_ORDER.indexOf F →
      slotHas (slotSet (slotPop (entity_merge clk u (trimS (lowerS u))
        state.last_intent state.slots) "force_intent") "qa_turns" (vInt 0))
        j = true := by
    intro j hj hidx
    have hjf : j ≠ "force_intent" := by fin_cases hj <;> decide
    refine slotHas_set_mono _ _ _ _ ?_
    rw [slotHas_pop_ne _ _ hjf]
    exact entity_merge_has_mono _ _ _ _ _ _ (hbef j hj hidx)
  obtain ⟨r1, r2, r3, r4⟩ := claim_intake_reask clk u
    (slotSet (slotPop (entity_merge clk u (trimS (lowerS u))
      state.last_intent state.slots) "force_intent") "qa_turns" (vInt 0))
    F hexp2 hun habs2 hbef2
  unfold dialogue_manager
  dsimp only
  rw [if_neg (show ¬ contains_any (trimS (lowerS u)) EXIT_WORDS = true
    by simp [hx])]
  rw [resolve_intent_intake u (trimS (lowerS u)) state.last_intent _
    hint1 hnc hnl]
  dsimp only
  rw [if_pos (show ("report_claim" : String) ≠ "doc_qa" by decide)]
  rw [if_neg (show ¬ (("report_claim" : String) = "handoff_human" ∨
      contains_any (trimS (lowerS u)) ["human", "human agent", "call me back",
        "call back"] = true) by simp [hh])]
  rw [if_pos (show ("report_claim" : String) = "report_claim" from rfl)]
  simp only [Option.map_some']
  rw [r1, r2, r3, r4]

/-- Witness for C9: an uninformative "blah" while the injuries question is
pending re-asks the injuries question and keeps the slot state unchanged. -/
theorem C9_witness :
    (dialogue_manager clkT ragT "blah"
        ⟨[("in_claim_intake", vBool true), ("claim_expected", vStr "injuries"),
          ("insurance_number", vStr "123456")], some "report_claim", 0⟩).map
        (fun p => (p.1.response_text, p.1.end_call,
                   slotGet? p.2.slots "claim_expected",
                   slotHas p.2.slots "injuries")) =
      some (ask_claim_question "injuries", false, some (vStr "injuries"),
        false) :=
  C9_amended_reask clkT ragT "blah"
    ⟨[("in_claim_intake", vBool true), ("claim_expected", vStr "injuries"),
      ("insurance_number", vStr "123456")], some "report_claim", 0⟩
    "injuries" (by decide) (by decide) (by decide) (by decide) (by decide)
    (by decide) (Or.inl ⟨by decide, by decide⟩) (by decide) (by decide)

end InsAgent
